import Mathlib

/-
Verification of the boiler water-treatment control core
(ESP32 firmware: blowdown valve controller, chemical dosing pumps,
fuzzy-logic advisory engine).

The development is a shallow embedding of the C++ sources:
  - src/blowdown.cpp      (BlowdownController)
  - src/chemical_pump.cpp (ChemicalPump / PumpManager)
  - src/fuzzy_logic.cpp   (FuzzyController)
  - src/web_server.cpp    (confidence computation only)

Modelling conventions:
  - `millis()` is passed explicitly as `now : Nat`; all calls of `millis()`
    within one tick read the same value (the tick is fast relative to 1 ms).
  - Unsigned machine integers are modelled as `Nat`; the one place where
    32-bit overflow is semantically visible to the verified claims
    (the Mode-B product `accumulated * percent`) carries an explicit
    `% 2^32`.  Timer subtractions `now - t` use `Nat` subtraction, which
    agrees with `uint32` arithmetic on monotone timestamps.
  - C `float` is modelled as exact rational arithmetic (`ℚ`).  The spec
    fixes no precision strategy beyond IEEE-754-equivalence, and every
    property proved here is stable under the rounding of the concrete
    inputs used.  A C float division by zero (`inf`) does not occur on
    any path exercised below; the `ℚ` convention `x / 0 = 0` is only
    reachable for configurations excluded by hypotheses (`prop_band > 0`).
  - Hardware pin writes (`digitalWrite`, stepper pulses) are I/O and are
    reflected only through the recorded state (`relay_energized`,
    stepper position/target).
-/

namespace Boiler

/-- Hand-Off-Auto operator mode (`hoa_mode_t` in config.h). -/
inductive HoaMode
  | auto
  | off
  | hand
deriving DecidableEq, Repr

/-- HOA hand-mode timeout, seconds (`HOA_HAND_TIMEOUT_SEC` in config.h). -/
def HOA_HAND_TIMEOUT_SEC : ℕ := 600

/-- Blowdown state machine states (`blowdown_state_t` in blowdown.h). -/
inductive BDState
  | idle
  | valveOpening
  | blowingDown
  | valveClosing
  | sampling
  | holding
  | waiting
  | timeout
  | error
deriving DecidableEq, Repr

/-- Conductivity sampling mode (`sample_mode_t` in config.h). -/
inductive SampleMode
  | continuous
  | intermittent
  | timedBlowdown
  | timeProportional
deriving DecidableEq, Repr

/-- Blowdown configuration (`blowdown_config_t` in config.h). -/
structure BlowdownConfig where
  setpoint : ℕ
  deadband : ℕ
  time_limit_seconds : ℕ
  control_direction : ℕ
  ball_valve_delay : ℕ
  hoa_mode : HoaMode
  timeout_flag : Bool
  accumulated_time : ℕ
deriving DecidableEq, Repr

/-- The sampling-relevant part of `conductivity_config_t` (config.h);
the measurement-calibration fields are consumed by the out-of-scope
sensor adapter and are not read by the blowdown controller. -/
structure CondConfig where
  sample_mode : SampleMode
  interval_seconds : ℕ
  duration_seconds : ℕ
  hold_time_seconds : ℕ
  blow_time_seconds : ℕ
  prop_band : ℕ
  max_prop_time_seconds : ℕ
deriving DecidableEq, Repr

/-- Blowdown status record (`blowdown_status_t` in blowdown.h). -/
structure BlowdownStatus where
  state : BDState
  valve_open : Bool
  relay_energized : Bool
  hoa_mode : HoaMode
  state_start_time : ℕ
  blowdown_start_time : ℕ
  current_blowdown_time : ℕ
  total_blowdown_time : ℕ
  accumulated_blowdown_time : ℕ
  timeout_flag : Bool
  waiting_for_reset : Bool
  last_conductivity : ℚ
  trapped_sample_conductivity : ℚ
deriving DecidableEq, Repr

/-- The full state of a `BlowdownController` object (blowdown.h private
section), including the function-static `hand_start_time` of
`BlowdownController::processHOA`. -/
structure BlowdownController where
  config : Option BlowdownConfig
  cond_config : Option CondConfig
  status : BlowdownStatus
  valve_action_start : ℕ
  valve_target_state : Bool
  interval_timer : ℕ
  duration_timer : ℕ
  hold_timer : ℕ
  prop_blowdown_time : ℕ
  hand_start_time : ℕ
deriving DecidableEq, Repr

namespace BlowdownController

/-- `BlowdownController::setRelayState` (pin writes are I/O; the recorded
relay state is kept). -/
def setRelayState (energize : Bool) (c : BlowdownController) : BlowdownController :=
  {c with status := {c.status with relay_energized := energize}}

/-- `BlowdownController::transitionState`. -/
def transitionState (now : ℕ) (new_state : BDState) (c : BlowdownController) :
    BlowdownController :=
  {c with status := {c.status with state := new_state, state_start_time := now}}

/-- `BlowdownController::startBallValve`. -/
def startBallValve (now : ℕ) (opening : Bool) (c : BlowdownController) :
    BlowdownController :=
  let c := {c with valve_target_state := opening, valve_action_start := now}
  let c := setRelayState opening c
  transitionState now (if opening then BDState.valveOpening else BDState.valveClosing) c

/-- `BlowdownController::checkBallValveComplete`. -/
def checkBallValveComplete (now : ℕ) (c : BlowdownController) : BlowdownController :=
  match c.config with
  | none => c
  | some cfg =>
    if now - c.valve_action_start ≥ cfg.ball_valve_delay * 1000 then
      let c := {c with status := {c.status with valve_open := c.valve_target_state}}
      if c.valve_target_state then
        let c := {c with status := {c.status with blowdown_start_time := now}}
        transitionState now BDState.blowingDown c
      else
        transitionState now BDState.idle c
    else c

/-- `BlowdownController::openValve`. -/
def openValve (now : ℕ) (c : BlowdownController) : BlowdownController :=
  if (c.config.map (fun cfg => cfg.ball_valve_delay)).getD 0 > 0 then
    startBallValve now true c
  else
    let c := setRelayState true c
    let c := {c with status := {c.status with valve_open := true, blowdown_start_time := now}}
    transitionState now BDState.blowingDown c

/-- `BlowdownController::closeValve`.  Closing from `BlowingDown` adds the
current discharge duration to the Mode-B accumulator and to the daily
total (seconds). -/
def closeValve (now : ℕ) (c : BlowdownController) : BlowdownController :=
  if (c.config.map (fun cfg => cfg.ball_valve_delay)).getD 0 > 0 then
    startBallValve now false c
  else
    let c := setRelayState false c
    let c := {c with status := {c.status with valve_open := false}}
    let c :=
      if c.status.state = BDState.blowingDown then
        {c with status := {c.status with
          accumulated_blowdown_time :=
            c.status.accumulated_blowdown_time + c.status.current_blowdown_time,
          total_blowdown_time :=
            c.status.total_blowdown_time + c.status.current_blowdown_time / 1000}}
      else c
    transitionState now BDState.idle c

/-- `BlowdownController::resetTimeout`. -/
def resetTimeout (now : ℕ) (c : BlowdownController) : BlowdownController :=
  let c := {c with status := {c.status with timeout_flag := false, waiting_for_reset := false}}
  let c :=
    match c.config with
    | none => c
    | some cfg => {c with config := some {cfg with timeout_flag := false}}
  transitionState now BDState.idle c

/-- `BlowdownController::processHOA` (the `static uint32_t hand_start_time`
is the controller field `hand_start_time`; there is a single
`BlowdownController` instance, so for this class the static is
per-instance in effect). -/
def processHOA (now : ℕ) (c : BlowdownController) : BlowdownController :=
  match c.status.hoa_mode with
  | HoaMode.hand =>
    if c.status.valve_open = false then
      let c := {c with hand_start_time := now}
      openValve now c
    else if now - c.hand_start_time ≥ HOA_HAND_TIMEOUT_SEC * 1000 then
      let c := closeValve now c
      {c with status := {c.status with hoa_mode := HoaMode.auto}}
    else c
  | HoaMode.off =>
    if c.status.valve_open then closeValve now c else c
  | HoaMode.auto => c

/-- `BlowdownController::processContinuousMode`.  `setpoint - deadband`
is computed after C integer promotion, i.e. it may be negative; this is
reflected by the subtraction in `ℚ`. -/
def processContinuousMode (now : ℕ) (conductivity : ℚ) (c : BlowdownController) :
    BlowdownController :=
  match c.config with
  | none => c
  | some cfg =>
    if c.status.waiting_for_reset then c
    else
      let setpoint : ℚ := cfg.setpoint
      let deadband : ℚ := cfg.deadband
      let high_control := cfg.control_direction = 0
      if high_control then
        if conductivity > setpoint ∧ c.status.valve_open = false then
          openValve now c
        else if conductivity < setpoint - deadband ∧ c.status.valve_open then
          closeValve now c
        else c
      else
        if conductivity < setpoint ∧ c.status.valve_open = false then
          openValve now c
        else if conductivity > setpoint + deadband ∧ c.status.valve_open then
          closeValve now c
        else c

/-- `BlowdownController::processIntermittentMode`. -/
def processIntermittentMode (now : ℕ) (conductivity : ℚ) (c : BlowdownController) :
    BlowdownController :=
  match c.config, c.cond_config with
  | some cfg, some cc =>
    if c.status.waiting_for_reset then c
    else
      let setpoint : ℚ := cfg.setpoint
      match c.status.state with
      | BDState.idle | BDState.waiting =>
        if now - c.interval_timer ≥ cc.interval_seconds * 1000 then
          let c := {c with interval_timer := now, duration_timer := now}
          let c := transitionState now BDState.sampling c
          openValve now c
        else c
      | BDState.sampling =>
        if now - c.duration_timer ≥ cc.duration_seconds * 1000 then
          if conductivity > setpoint then
            transitionState now BDState.blowingDown c
          else
            let c := closeValve now c
            let c := {c with hold_timer := now}
            let c := {c with status :=
              {c.status with trapped_sample_conductivity := conductivity}}
            transitionState now BDState.holding c
        else c
      | BDState.blowingDown =>
        if conductivity < setpoint then
          let c := closeValve now c
          let c := {c with hold_timer := now}
          let c := {c with status :=
            {c.status with trapped_sample_conductivity := conductivity}}
          transitionState now BDState.holding c
        else c
      | BDState.holding =>
        if now - c.hold_timer ≥ cc.hold_time_seconds * 1000 then
          if conductivity > setpoint then
            let c := {c with duration_timer := now}
            let c := transitionState now BDState.sampling c
            openValve now c
          else
            transitionState now BDState.waiting c
        else c
      | _ => c
  | _, _ => c

/-- `BlowdownController::processTimedBlowdown`. -/
def processTimedBlowdown (now : ℕ) (conductivity : ℚ) (c : BlowdownController) :
    BlowdownController :=
  match c.config, c.cond_config with
  | some cfg, some cc =>
    if c.status.waiting_for_reset then c
    else
      let setpoint : ℚ := cfg.setpoint
      match c.status.state with
      | BDState.idle | BDState.waiting =>
        if now - c.interval_timer ≥ cc.interval_seconds * 1000 then
          let c := {c with interval_timer := now, duration_timer := now}
          let c := transitionState now BDState.sampling c
          openValve now c
        else c
      | BDState.sampling =>
        if now - c.duration_timer ≥ cc.duration_seconds * 1000 then
          let c := closeValve now c
          let c := {c with hold_timer := now}
          let c := {c with status :=
            {c.status with trapped_sample_conductivity := conductivity}}
          transitionState now BDState.holding c
        else c
      | BDState.holding =>
        if now - c.hold_timer ≥ cc.hold_time_seconds * 1000 then
          if conductivity > setpoint then
            let c := {c with prop_blowdown_time := cc.blow_time_seconds * 1000}
            let c := transitionState now BDState.blowingDown c
            openValve now c
          else
            transitionState now BDState.waiting c
        else c
      | BDState.blowingDown =>
        if now - c.status.blowdown_start_time ≥ c.prop_blowdown_time then
          let c := closeValve now c
          let c := {c with hold_timer := now}
          transitionState now BDState.holding c
        else c
      | _ => c
  | _, _ => c

/-- `BlowdownController::calculateProportionalTime`.  The final
`(uint32_t)` cast of a non-negative float truncates, i.e. takes the
floor. -/
def calculateProportionalTime (conductivity : ℚ) (c : BlowdownController) : ℕ :=
  match c.config, c.cond_config with
  | some cfg, some cc =>
    let deviation := conductivity - (cfg.setpoint : ℚ)
    if deviation ≤ 0 then 0
    else
      let percentage := deviation / (cc.prop_band : ℚ)
      let percentage := if percentage > 1 then 1 else percentage
      let max_time_ms := cc.max_prop_time_seconds * 1000
      ⌊percentage * (max_time_ms : ℚ)⌋₊
  | _, _ => 0

/-- `BlowdownController::processTimeProportional`. -/
def processTimeProportional (now : ℕ) (conductivity : ℚ) (c : BlowdownController) :
    BlowdownController :=
  match c.config, c.cond_config with
  | some cfg, some cc =>
    if c.status.waiting_for_reset then c
    else
      let setpoint : ℚ := cfg.setpoint
      match c.status.state with
      | BDState.idle | BDState.waiting =>
        if now - c.interval_timer ≥ cc.interval_seconds * 1000 then
          let c := {c with interval_timer := now, duration_timer := now}
          let c := transitionState now BDState.sampling c
          openValve now c
        else c
      | BDState.sampling =>
        if now - c.duration_timer ≥ cc.duration_seconds * 1000 then
          let c := closeValve now c
          let c := {c with hold_timer := now}
          let c := {c with status :=
            {c.status with trapped_sample_conductivity := conductivity}}
          transitionState now BDState.holding c
        else c
      | BDState.holding =>
        if now - c.hold_timer ≥ cc.hold_time_seconds * 1000 then
          if conductivity > setpoint then
            let c := {c with prop_blowdown_time := calculateProportionalTime conductivity c}
            let c := transitionState now BDState.blowingDown c
            openValve now c
          else
            transitionState now BDState.waiting c
        else c
      | BDState.blowingDown =>
        if now - c.status.blowdown_start_time ≥ c.prop_blowdown_time then
          let c := closeValve now c
          let c := {c with hold_timer := now}
          transitionState now BDState.holding c
        else c
      | _ => c
  | _, _ => c

/-- `BlowdownController::checkTimeout`. -/
def checkTimeout (now : ℕ) (c : BlowdownController) : BlowdownController :=
  match c.config with
  | none => c
  | some cfg =>
    if cfg.time_limit_seconds = 0 then c
    else if c.status.state = BDState.blowingDown then
      if c.status.current_blowdown_time ≥ cfg.time_limit_seconds * 1000 then
        let c := closeValve now c
        let c := {c with status := {c.status with timeout_flag := true, waiting_for_reset := true}}
        let c := {c with config := some {cfg with timeout_flag := true}}
        transitionState now BDState.timeout c
      else c
    else c

/-- `BlowdownController::update` — the blowdown tick. -/
def update (now : ℕ) (conductivity : ℚ) (flow_ok : Bool) (c : BlowdownController) :
    BlowdownController :=
  let c := {c with status := {c.status with last_conductivity := conductivity}}
  if flow_ok = false then
    if c.status.valve_open then closeValve now c else c
  else
    let c := processHOA now c
    if c.status.hoa_mode ≠ HoaMode.auto then c
    else if c.status.state = BDState.valveOpening ∨ c.status.state = BDState.valveClosing then
      checkBallValveComplete now c
    else
      let c :=
        match c.cond_config with
        | none => processContinuousMode now conductivity c
        | some cc =>
          match cc.sample_mode with
          | SampleMode.continuous => processContinuousMode now conductivity c
          | SampleMode.intermittent => processIntermittentMode now conductivity c
          | SampleMode.timedBlowdown => processTimedBlowdown now conductivity c
          | SampleMode.timeProportional => processTimeProportional now conductivity c
      let c := checkTimeout now c
      if c.status.state = BDState.blowingDown then
        {c with status := {c.status with
          current_blowdown_time := now - c.status.blowdown_start_time}}
      else c

/-- `BlowdownController::isActive`. -/
def isActive (c : BlowdownController) : Bool :=
  c.status.valve_open || c.status.state = BDState.blowingDown ||
    c.status.state = BDState.valveOpening

end BlowdownController

/-- Chemical pump state (`pump_state_t` in chemical_pump.h). -/
inductive PumpState
  | idle
  | running
  | priming
  | calibrating
  | lockedOut
  | error
deriving DecidableEq, Repr

/-- Chemical feed mode (`feed_mode_t` in config.h). -/
inductive FeedMode
  | disabled
  | modeA
  | modeB
  | modeC
  | modeD
  | modeE
  | scheduled
deriving DecidableEq, Repr

/-- Pump configuration (`pump_config_t` in config.h; the stepper speed
and persistent-statistics fields are not read by the verified logic). -/
structure PumpConfig where
  enabled : Bool
  feed_mode : FeedMode
  hoa_mode : HoaMode
  lockout_seconds : ℕ
  percent_of_blowdown : ℕ
  max_time_seconds : ℕ
  percent_of_time : ℕ
  cycle_time_seconds : ℕ
  time_per_contact_ms : ℕ
  contact_divider : ℕ
  time_per_volume_ms : ℕ
  volume_to_initiate : ℕ
  time_limit_seconds : ℕ
  steps_per_ml : ℕ
deriving DecidableEq, Repr

/-- The AccelStepper state visible to the pump logic: current position
and target position.  `run()` makes at most one step toward the target
per call; the model takes that step whenever distance remains (speed
timing is abstracted away — no verified claim counts steps).
`setCurrentPosition` sets both current and target, as AccelStepper does. -/
structure Stepper where
  position : ℤ
  target : ℤ
deriving DecidableEq, Repr

namespace Stepper

/-- `AccelStepper::move` (relative move). -/
def move (d : ℤ) (s : Stepper) : Stepper :=
  {s with target := s.position + d}

/-- `AccelStepper::distanceToGo`. -/
def distanceToGo (s : Stepper) : ℤ :=
  s.target - s.position

/-- `AccelStepper::run` — at most one step toward the target. -/
def run (s : Stepper) : Stepper :=
  if s.position < s.target then {s with position := s.position + 1}
  else if s.target < s.position then {s with position := s.position - 1}
  else s

/-- `AccelStepper::stop` (model: the motor is commanded to halt at the
current position). -/
def stop (s : Stepper) : Stepper :=
  {s with target := s.position}

/-- `AccelStepper::setCurrentPosition`. -/
def setCurrentPosition (p : ℤ) (s : Stepper) : Stepper :=
  {s with position := p, target := p}

end Stepper

/-- Pump status record (`pump_status_t` in chemical_pump.h). -/
structure PumpStatus where
  state : PumpState
  enabled : Bool
  running : Bool
  hoa_mode : HoaMode
  start_time : ℕ
  runtime_ms : ℕ
  total_runtime_ms : ℕ
  total_steps : ℕ
  volume_dispensed_ml : ℚ
  lockout_end_time : ℕ
  accumulated_feed_time : ℕ
  contact_count : ℕ
  accumulated_volume : ℚ
deriving DecidableEq, Repr

/-- The state of one `ChemicalPump` object (chemical_pump.h private
section).  The function-static `hand_start_time` of
`ChemicalPump::processHOA` is NOT part of this structure: it is a single
variable shared by all pump instances and is threaded explicitly through
`processHOA`/`update` (see `PumpManager`). -/
structure ChemicalPump where
  config : Option PumpConfig
  status : PumpStatus
  stepper : Stepper
  target_steps : ℕ
  target_time_ms : ℕ
  time_limited : Bool
  steps_limited : Bool
  mode_b_accumulated_blowdown : ℕ
  mode_a_was_blowing : Bool
  mode_c_cycle_start : ℕ
deriving DecidableEq, Repr

namespace ChemicalPump

/-- `ChemicalPump::stop`. -/
def stop (p : ChemicalPump) : ChemicalPump :=
  let p := {p with stepper := p.stepper.stop}
  let p := {p with status := {p.status with running := false}}
  if p.status.state = PumpState.running then
    {p with status := {p.status with state := PumpState.idle}}
  else p

/-- `ChemicalPump::start`.  The `(uint32_t)` cast of the non-negative
float product `volume_ml * steps_per_ml` truncates (floor). -/
def start (now : ℕ) (duration_ms : ℕ) (volume_ml : ℚ) (p : ChemicalPump) :
    ChemicalPump :=
  if p.status.enabled = false then p
  else if p.status.state = PumpState.lockedOut ∧ now < p.status.lockout_end_time then p
  else
    let p :=
      if p.status.state = PumpState.lockedOut then
        {p with status := {p.status with state := PumpState.idle}}
      else p
    let p := {p with status := {p.status with
      state := PumpState.running, running := true, start_time := now, runtime_ms := 0}}
    let p :=
      match p.config with
      | some cfg =>
        if volume_ml > 0 ∧ cfg.steps_per_ml > 0 then
          let steps := ⌊volume_ml * (cfg.steps_per_ml : ℚ)⌋₊
          let p := {p with target_steps := steps, steps_limited := true}
          {p with stepper := p.stepper.move steps}
        else
          let p := {p with steps_limited := false}
          {p with stepper := p.stepper.move 1000000000}
      | none =>
        let p := {p with steps_limited := false}
        {p with stepper := p.stepper.move 1000000000}
    if duration_ms > 0 then
      {p with target_time_ms := duration_ms, time_limited := true}
    else
      {p with time_limited := false}

/-- `ChemicalPump::processHOA`.  `hand` is the function-static
`hand_start_time`, shared among all instances; the updated value is
returned alongside the pump. -/
def processHOA (now : ℕ) (hand : ℕ) (p : ChemicalPump) : ChemicalPump × ℕ :=
  match p.status.hoa_mode with
  | HoaMode.hand =>
    if p.status.running = false then
      (start now (HOA_HAND_TIMEOUT_SEC * 1000) 0 p, now)
    else if now - hand ≥ HOA_HAND_TIMEOUT_SEC * 1000 then
      let p := stop p
      ({p with status := {p.status with hoa_mode := HoaMode.auto}}, hand)
    else (p, hand)
  | HoaMode.off =>
    if p.status.running then (stop p, hand) else (p, hand)
  | HoaMode.auto => (p, hand)

/-- `ChemicalPump::checkTimeout`. -/
def checkTimeout (p : ChemicalPump) : ChemicalPump :=
  match p.config with
  | none => p
  | some cfg =>
    if p.status.running = false then p
    else if cfg.time_limit_seconds > 0 ∧
        p.status.runtime_ms ≥ cfg.time_limit_seconds * 1000 then
      let p := stop p
      {p with status := {p.status with state := PumpState.lockedOut}}
    else p

/-- `ChemicalPump::updateStats`. -/
def updateStats (now : ℕ) (p : ChemicalPump) : ChemicalPump :=
  if p.status.running then
    let delta := now - p.status.start_time
    let p := {p with status := {p.status with
      runtime_ms := delta, total_runtime_ms := p.status.total_runtime_ms + delta}}
    let steps := p.stepper.position.natAbs
    let p := {p with status := {p.status with total_steps := p.status.total_steps + steps}}
    let p := {p with stepper := p.stepper.setCurrentPosition 0}
    match p.config with
    | some cfg =>
      if cfg.steps_per_ml > 0 then
        {p with status := {p.status with
          volume_dispensed_ml := (p.status.total_steps : ℚ) / (cfg.steps_per_ml : ℚ)}}
      else p
    | none => p
  else p

/-- `ChemicalPump::update` — the per-tick pump driver (`hand` is the
shared Hand-mode timestamp, threaded through). -/
def update (now : ℕ) (hand : ℕ) (p : ChemicalPump) : ChemicalPump × ℕ :=
  let (p, hand) := processHOA now hand p
  let p := checkTimeout p
  if p.status.running then
    let p := {p with stepper := p.stepper.run}
    let p :=
      if p.steps_limited ∧ p.stepper.distanceToGo = 0 then stop p else p
    let p :=
      if p.time_limited ∧ now - p.status.start_time ≥ p.target_time_ms then stop p
      else p
    (updateStats now p, hand)
  else (p, hand)

/-- `ChemicalPump::processModeA` (feed follows blowdown). -/
def processModeA (now : ℕ) (cfg : PumpConfig) (blowdown_active : Bool)
    (p : ChemicalPump) : ChemicalPump :=
  if blowdown_active then
    let p :=
      if p.status.running = false then
        if cfg.lockout_seconds > 0 then start now (cfg.lockout_seconds * 1000) 0 p
        else start now 0 0 p
      else p
    {p with mode_a_was_blowing := true}
  else
    let p :=
      if p.mode_a_was_blowing ∧ p.status.running then stop p else p
    {p with mode_a_was_blowing := false}

/-- `ChemicalPump::processModeB` (feed is a percentage of accumulated
blowdown time).  The product `accumulated * percent` is computed in
`uint32`, hence the explicit `% 2^32`. -/
def processModeB (now : ℕ) (cfg : PumpConfig) (blowdown_active : Bool)
    (blowdown_time_ms : ℕ) (p : ChemicalPump) : ChemicalPump :=
  if blowdown_active then
    let p := {p with mode_b_accumulated_blowdown := blowdown_time_ms}
    if p.status.running then stop p else p
  else
    if p.mode_b_accumulated_blowdown > 0 ∧ p.status.running = false then
      let feed_time := p.mode_b_accumulated_blowdown * cfg.percent_of_blowdown % 2 ^ 32 / 100
      let feed_time :=
        if cfg.max_time_seconds > 0 then
          if feed_time > cfg.max_time_seconds * 1000 then cfg.max_time_seconds * 1000
          else feed_time
        else feed_time
      let p := if feed_time > 0 then start now feed_time 0 p else p
      {p with mode_b_accumulated_blowdown := 0}
    else p

/-- `ChemicalPump::processModeC` (duty cycle, percent in 0.1% units). -/
def processModeC (now : ℕ) (cfg : PumpConfig) (p : ChemicalPump) : ChemicalPump :=
  let p :=
    if p.mode_c_cycle_start = 0 then {p with mode_c_cycle_start := now} else p
  let cycle_time_ms := cfg.cycle_time_seconds * 1000
  let on_time_ms := cycle_time_ms * cfg.percent_of_time / 1000
  let elapsed := now - p.mode_c_cycle_start
  if elapsed < on_time_ms then
    if p.status.running = false then start now (on_time_ms - elapsed) 0 p else p
  else if elapsed ≥ cycle_time_ms then
    {p with mode_c_cycle_start := now}
  else
    if p.status.running then stop p else p

/-- Shared tail of `processModeD`/`processModeE`: run the pump if
accumulated feed time is available and the pump is idle (the identical
code block at the end of both C functions). -/
def runAccumulated (now : ℕ) (p : ChemicalPump) : ChemicalPump :=
  if p.status.accumulated_feed_time ≠ 0 ∧ p.status.running = false then
    let run_time := p.status.accumulated_feed_time
    let p := {p with status := {p.status with accumulated_feed_time := 0}}
    start now run_time 0 p
  else p

/-- `ChemicalPump::processModeD` (water-meter contacts). -/
def processModeD (now : ℕ) (cfg : PumpConfig) (water_contacts : ℕ)
    (p : ChemicalPump) : ChemicalPump :=
  let p := {p with status := {p.status with
    contact_count := p.status.contact_count + water_contacts}}
  let p :=
    if p.status.contact_count ≥ cfg.contact_divider then
      let p := {p with status := {p.status with
        accumulated_feed_time := p.status.accumulated_feed_time + cfg.time_per_contact_ms}}
      let p :=
        if cfg.time_limit_seconds > 0 ∧
            p.status.accumulated_feed_time > cfg.time_limit_seconds * 1000 then
          {p with status := {p.status with
            accumulated_feed_time := cfg.time_limit_seconds * 1000}}
        else p
      {p with status := {p.status with
        contact_count := p.status.contact_count - cfg.contact_divider}}
    else p
  runAccumulated now p

/-- `ChemicalPump::processModeE` (paddlewheel volume). -/
def processModeE (now : ℕ) (cfg : PumpConfig) (water_volume : ℚ)
    (p : ChemicalPump) : ChemicalPump :=
  let p := {p with status := {p.status with
    accumulated_volume := p.status.accumulated_volume + water_volume}}
  let p :=
    if p.status.accumulated_volume ≥ (cfg.volume_to_initiate : ℚ) then
      let p := {p with status := {p.status with
        accumulated_feed_time := p.status.accumulated_feed_time + cfg.time_per_volume_ms}}
      let p :=
        if cfg.time_limit_seconds > 0 ∧
            p.status.accumulated_feed_time > cfg.time_limit_seconds * 1000 then
          {p with status := {p.status with
            accumulated_feed_time := cfg.time_limit_seconds * 1000}}
        else p
      {p with status := {p.status with
        accumulated_volume := p.status.accumulated_volume - (cfg.volume_to_initiate : ℚ)}}
    else p
  runAccumulated now p

/-- `ChemicalPump::processFeedMode`. -/
def processFeedMode (now : ℕ) (blowdown_active : Bool) (blowdown_time_ms : ℕ)
    (water_contacts : ℕ) (water_volume : ℚ) (p : ChemicalPump) : ChemicalPump :=
  match p.config with
  | none => p
  | some cfg =>
    if p.status.enabled = false then p
    else if p.status.hoa_mode ≠ HoaMode.auto then p
    else
      match cfg.feed_mode with
      | FeedMode.modeA => processModeA now cfg blowdown_active p
      | FeedMode.modeB => processModeB now cfg blowdown_active blowdown_time_ms p
      | FeedMode.modeC => processModeC now cfg p
      | FeedMode.modeD => processModeD now cfg water_contacts p
      | FeedMode.modeE => processModeE now cfg water_volume p
      | _ => p

/-- `ChemicalPump::setHOA`. -/
def setHOA (mode : HoaMode) (p : ChemicalPump) : ChemicalPump :=
  let p := {p with status := {p.status with hoa_mode := mode}}
  match p.config with
  | none => p
  | some cfg => {p with config := some {cfg with hoa_mode := mode}}

end ChemicalPump

/-- `PumpManager`: the three pump objects plus the single function-static
`hand_start_time` that `ChemicalPump::processHOA` shares across all
instances (it is declared `static` inside the member function, so there
is one copy for the whole class, not one per object). -/
structure PumpManager where
  pump0 : ChemicalPump
  pump1 : ChemicalPump
  pump2 : ChemicalPump
  hand_start_time : ℕ
  emergency_stop : Bool
deriving DecidableEq, Repr

namespace PumpManager

/-- `PumpManager::update` — updates the pumps in index order, threading
the shared Hand-mode timestamp through them. -/
def update (now : ℕ) (m : PumpManager) : PumpManager :=
  if m.emergency_stop then m
  else
    let (p0, h0) := m.pump0.update now m.hand_start_time
    let (p1, h1) := m.pump1.update now h0
    let (p2, h2) := m.pump2.update now h1
    {m with pump0 := p0, pump1 := p1, pump2 := p2, hand_start_time := h2}

/-- `PumpManager::processFeedModes`. -/
def processFeedModes (now : ℕ) (blowdown_active : Bool) (blowdown_time_ms : ℕ)
    (water_contacts : ℕ) (water_volume : ℚ) (m : PumpManager) : PumpManager :=
  if m.emergency_stop then m
  else
    {m with
      pump0 := m.pump0.processFeedMode now blowdown_active blowdown_time_ms
        water_contacts water_volume,
      pump1 := m.pump1.processFeedMode now blowdown_active blowdown_time_ms
        water_contacts water_volume,
      pump2 := m.pump2.processFeedMode now blowdown_active blowdown_time_ms
        water_contacts water_volume}

end PumpManager

/-- Membership-function shapes (`mf_type_t` in fuzzy_logic.h).  The
Gaussian and sigmoid shapes exist in the enum but are never constructed
by the initialization code (`initOutputVariables` /
`updateMembershipFunctions` build only triangular and trapezoidal
functions), so the embedding's datatype carries the constructed shapes;
`MF_SINGLETON` is kept because `evaluateMF` gives it exact semantics. -/
inductive MFShape
  | triangular (a b c : ℚ)
  | trapezoidal (a b c d : ℚ)
  | singleton (a : ℚ)
deriving DecidableEq, Repr

/-- Membership function (`membership_func_t` in fuzzy_logic.h). -/
structure MF where
  shape : MFShape
  name : String
deriving DecidableEq, Repr

/-- Linguistic variable (`linguistic_var_t`); `num_sets = sets.length`. -/
structure LinguisticVar where
  name : String
  min_value : ℚ
  max_value : ℚ
  sets : List MF
deriving DecidableEq, Repr

/-- Defuzzification resolution (`FUZZY_RESOLUTION` in fuzzy_logic.h). -/
def FUZZY_RESOLUTION : ℕ := 101

/-- The don't-care term marker (`DONT_CARE` in fuzzy_logic.h). -/
def DONT_CARE : ℕ := 255

/-- Linguistic-term shorthands used by `loadDefaultRules`
(`linguistic_term_t` values via the VL/LO/MD/HI/VH macros). -/
def VL : ℕ := 0

/-- `TERM_LOW`. -/
def LO : ℕ := 1

/-- `TERM_MEDIUM`. -/
def MD : ℕ := 3

/-- `TERM_HIGH`. -/
def HI : ℕ := 5

/-- `TERM_VERY_HIGH`. -/
def VH : ℕ := 6

/-- `DONT_CARE` shorthand (the `DC` macro). -/
def DC : ℕ := 255

/-- `FuzzyController::evaluateMF`.  The `min_val`/`max_val` parameters of
the C function are unused by its body and are omitted.  Divisions by a
zero-length ramp cannot occur on a reached branch: the triangular ramp
`(value - a) / (b - a)` is evaluated only when `a < value ≤ b`, and
`(c - value) / (c - b)` only when `b < value < c` (likewise for the
trapezoid). -/
def evaluateMF (mf : MF) (value : ℚ) : ℚ :=
  match mf.shape with
  | MFShape.triangular a b c =>
    if value ≤ a ∨ value ≥ c then 0
    else if value ≤ b then (value - a) / (b - a)
    else (c - value) / (c - b)
  | MFShape.trapezoidal a b c d =>
    if value ≤ a ∨ value ≥ d then 0
    else if value ≥ b ∧ value ≤ c then 1
    else if value < b then (value - a) / (b - a)
    else (d - value) / (d - c)
  | MFShape.singleton a =>
    if |value - a| < 1 / 1000 then 1 else 0

/-- Fuzzy configuration (`fuzzy_config_t`): the setpoint/deadband fields
read by `updateMembershipFunctions` (output scaling and method selectors
are not consumed by the verified inference path). -/
structure FuzzyConfig where
  cond_setpoint : ℚ
  cond_deadband : ℚ
  alk_setpoint : ℚ
  alk_deadband : ℚ
  sulfite_setpoint : ℚ
  sulfite_deadband : ℚ
  ph_setpoint : ℚ
  ph_deadband : ℚ
deriving DecidableEq, Repr

/-- The six input linguistic variables as built by
`initInputVariables` followed by `updateMembershipFunctions(config)`:
index 0 = TDS, 1 = alkalinity, 2 = sulfite, 3 = pH, 4 = temperature,
5 = trend.  Decimal float literals of the C source are written as exact
rationals. -/
def inputVars (cfg : FuzzyConfig) : Fin 6 → LinguisticVar
  | 0 =>
    let sp := cfg.cond_setpoint
    let db := cfg.cond_deadband
    { name := "TDS", min_value := 0, max_value := 5000,
      sets := [
        ⟨MFShape.trapezoidal 0 0 (sp * (1/2)) (sp * (7/10)), "VeryLow"⟩,
        ⟨MFShape.triangular (sp * (1/2)) (sp * (3/4)) (sp - db), "Low"⟩,
        ⟨MFShape.triangular (sp - db * 2) sp (sp + db * 2), "Normal"⟩,
        ⟨MFShape.triangular (sp + db) (sp * (5/4)) (sp * (3/2)), "High"⟩,
        ⟨MFShape.trapezoidal (sp * (13/10)) (sp * (3/2)) 5000 5000, "VeryHigh"⟩] }
  | 1 =>
    let sp := cfg.alk_setpoint
    let db := cfg.alk_deadband
    { name := "Alkalinity", min_value := 0, max_value := 1000,
      sets := [
        ⟨MFShape.trapezoidal 0 0 (sp * (3/10)) (sp * (1/2)), "VeryLow"⟩,
        ⟨MFShape.triangular (sp * (2/5)) (sp * (3/5)) (sp - db), "Low"⟩,
        ⟨MFShape.triangular (sp - db * 2) sp (sp + db * 2), "Normal"⟩,
        ⟨MFShape.triangular (sp + db) (sp * (7/5)) (sp * (9/5)), "High"⟩,
        ⟨MFShape.trapezoidal (sp * (3/2)) (sp * 2) 1000 1000, "VeryHigh"⟩] }
  | 2 =>
    let sp := cfg.sulfite_setpoint
    let db := cfg.sulfite_deadband
    { name := "Sulfite", min_value := 0, max_value := 100,
      sets := [
        ⟨MFShape.trapezoidal 0 0 (sp * (1/5)) (sp * (2/5)), "VeryLow"⟩,
        ⟨MFShape.triangular (sp * (3/10)) (sp * (1/2)) (sp - db), "Low"⟩,
        ⟨MFShape.triangular (sp - db * 2) sp (sp + db * 2), "Normal"⟩,
        ⟨MFShape.triangular (sp + db) (sp * (3/2)) (sp * 2), "High"⟩,
        ⟨MFShape.trapezoidal (sp * (9/5)) (sp * (5/2)) 100 100, "VeryHigh"⟩] }
  | 3 =>
    let sp := cfg.ph_setpoint
    let db := cfg.ph_deadband
    { name := "pH", min_value := 7, max_value := 14,
      sets := [
        ⟨MFShape.trapezoidal 7 7 9 10, "Low"⟩,
        ⟨MFShape.triangular (19/2) (21/2) (sp - db), "SlightlyLow"⟩,
        ⟨MFShape.triangular (sp - db) sp (sp + db), "Normal"⟩,
        ⟨MFShape.triangular (sp + db) 12 (25/2), "SlightlyHigh"⟩,
        ⟨MFShape.trapezoidal 12 (25/2) 14 14, "High"⟩] }
  | 4 =>
    { name := "Temperature", min_value := 0, max_value := 100,
      sets := [
        ⟨MFShape.trapezoidal 0 0 20 40, "Cold"⟩,
        ⟨MFShape.triangular 30 50 70, "Warm"⟩,
        ⟨MFShape.trapezoidal 60 80 100 100, "Hot"⟩] }
  | 5 =>
    { name := "Trend", min_value := -100, max_value := 100,
      sets := [
        ⟨MFShape.trapezoidal (-100) (-100) (-30) (-10), "Decreasing"⟩,
        ⟨MFShape.triangular (-20) (-5) 0, "SlightDecrease"⟩,
        ⟨MFShape.triangular (-5) 0 5, "Stable"⟩,
        ⟨MFShape.triangular 0 5 20, "SlightIncrease"⟩,
        ⟨MFShape.trapezoidal 10 30 100 100, "Increasing"⟩] }

/-- The four output linguistic variables as built by
`initOutputVariables`: index 0 = blowdown, 1 = caustic, 2 = sulfite,
3 = acid; all four share the same five triangular sets on [0, 100]. -/
def outputVars : Fin 4 → LinguisticVar :=
  let sets : List MF := [
    ⟨MFShape.triangular 0 0 25, "Zero"⟩,
    ⟨MFShape.triangular 0 25 50, "Low"⟩,
    ⟨MFShape.triangular 25 50 75, "Medium"⟩,
    ⟨MFShape.triangular 50 75 100, "High"⟩,
    ⟨MFShape.triangular 75 100 100, "VeryHigh"⟩]
  fun o =>
    { name := ["Blowdown", "Caustic", "Sulfite", "Acid"].getD o "",
      min_value := 0, max_value := 100, sets := sets }

/-- Fuzzy rule (`fuzzy_rule_t`): term index per input / output, 255 =
don't care. -/
structure Rule where
  antecedent : List ℕ
  consequent : List ℕ
  weight : ℚ
  enabled : Bool
deriving DecidableEq, Repr

/-- `FuzzyController::loadDefaultRules` — the 25-entry default rule base,
with the exact `linguistic_term_t` codes of the source (`MD = 3`,
`HI = 5`, `VH = 6`, even though every input variable has only 5 sets and
every output variable has 5 sets). -/
def defaultRules : List Rule := [
  ⟨[VH, DC, DC, DC, DC, DC], [VH, DC, DC, DC], 1, true⟩,
  ⟨[HI, DC, DC, DC, DC, DC], [HI, DC, DC, DC], 1, true⟩,
  ⟨[MD, DC, DC, DC, DC, DC], [VL, DC, DC, DC], 1, true⟩,
  ⟨[LO, DC, DC, DC, DC, DC], [VL, DC, DC, DC], 1, true⟩,
  ⟨[HI, DC, DC, DC, DC, VH], [VH, DC, DC, DC], 1, true⟩,
  ⟨[DC, VL, DC, DC, DC, DC], [DC, VH, DC, DC], 1, true⟩,
  ⟨[DC, LO, DC, DC, DC, DC], [DC, HI, DC, DC], 1, true⟩,
  ⟨[DC, MD, DC, DC, DC, DC], [DC, VL, DC, DC], 1, true⟩,
  ⟨[DC, HI, DC, DC, DC, DC], [MD, VL, DC, DC], 4/5, true⟩,
  ⟨[DC, VH, DC, DC, DC, DC], [HI, VL, DC, DC], 9/10, true⟩,
  ⟨[DC, DC, VL, DC, DC, DC], [DC, DC, VH, DC], 1, true⟩,
  ⟨[DC, DC, LO, DC, DC, DC], [DC, DC, HI, DC], 1, true⟩,
  ⟨[DC, DC, MD, DC, DC, DC], [DC, DC, LO, DC], 1, true⟩,
  ⟨[DC, DC, HI, DC, DC, DC], [DC, DC, VL, DC], 1, true⟩,
  ⟨[DC, DC, VH, DC, DC, DC], [LO, DC, VL, DC], 7/10, true⟩,
  ⟨[DC, DC, DC, VL, DC, DC], [DC, HI, DC, VL], 1, true⟩,
  ⟨[DC, DC, DC, LO, DC, DC], [DC, MD, DC, VL], 4/5, true⟩,
  ⟨[DC, DC, DC, MD, DC, DC], [DC, VL, DC, VL], 1/2, true⟩,
  ⟨[DC, DC, DC, HI, DC, DC], [DC, VL, DC, LO], 7/10, true⟩,
  ⟨[DC, DC, DC, VH, DC, DC], [DC, VL, DC, MD], 9/10, true⟩,
  ⟨[HI, HI, DC, DC, DC, DC], [VH, VL, DC, DC], 1, true⟩,
  ⟨[LO, LO, DC, DC, DC, DC], [VL, HI, DC, DC], 9/10, true⟩,
  ⟨[DC, DC, LO, DC, HI, DC], [DC, DC, VH, DC], 1, true⟩,
  ⟨[MD, MD, MD, DC, DC, DC], [VL, VL, LO, VL], 1, true⟩,
  ⟨[DC, DC, DC, DC, DC, VH], [MD, DC, DC, DC], 4/5, true⟩]

/-- Input record for `evaluate` (`fuzzy_inputs_t` in fuzzy_logic.h). -/
structure FuzzyInputs where
  conductivity : ℚ
  alkalinity : ℚ
  sulfite : ℚ
  ph : ℚ
  temperature : ℚ
  cond_trend : ℚ
  alkalinity_valid : Bool
  sulfite_valid : Bool
  ph_valid : Bool
deriving DecidableEq, Repr

/-- Result record (`fuzzy_result_t` in fuzzy_logic.h). -/
structure FuzzyResult where
  blowdown_rate : ℚ
  caustic_rate : ℚ
  sulfite_rate : ℚ
  acid_rate : ℚ
  max_firing_strength : ℚ
  active_rules : ℕ
  dominant_rule : ℕ
deriving DecidableEq, Repr

/-- The `FuzzyController` state consumed by `evaluate`: the configuration
pointer, the rule base, and the cached manual entries written by
`setManualInput`. -/
structure FuzzyController where
  config : Option FuzzyConfig
  rules : List Rule
  manual_values : Fin 6 → ℚ
  manual_valid : Fin 6 → Bool

namespace FuzzyController

/-- `FuzzyController::fuzzify` (degrees for every set of one variable). -/
def fuzzify (var : LinguisticVar) (value : ℚ) : List ℚ :=
  var.sets.map (fun mf => evaluateMF mf value)

/-- The membership vector substituted for an invalid manual input:
`memset` to zero, then full membership in term index 2 ("Normal"); the
backing C array is `FUZZY_MAX_SETS = 7` wide. -/
def normalDefault : List ℚ := [0, 0, 1, 0, 0, 0, 0]

/-- Step 1 of `FuzzyController::evaluate`: the membership degrees
actually used for each of the six inputs.  Inputs 0–3 (TDS, alkalinity,
sulfite, pH) come from the cached manual entries when their validity
flag is set and otherwise default to `normalDefault`; input 4 is the
sensor temperature and input 5 the conductivity trend, both always
fuzzified. -/
def membershipDegrees (cfg : FuzzyConfig) (fc : FuzzyController)
    (inp : FuzzyInputs) : Fin 6 → List ℚ
  | 0 =>
    if fc.manual_valid 0 then fuzzify (inputVars cfg 0) (fc.manual_values 0)
    else normalDefault
  | 1 =>
    if fc.manual_valid 1 then fuzzify (inputVars cfg 1) (fc.manual_values 1)
    else normalDefault
  | 2 =>
    if fc.manual_valid 2 then fuzzify (inputVars cfg 2) (fc.manual_values 2)
    else normalDefault
  | 3 =>
    if fc.manual_valid 3 then fuzzify (inputVars cfg 3) (fc.manual_values 3)
    else normalDefault
  | 4 => fuzzify (inputVars cfg 4) inp.temperature
  | 5 => fuzzify (inputVars cfg 5) inp.cond_trend

/-- Firing strength of one rule: minimum of the matched antecedent
memberships (terms that are `DONT_CARE` or out of range for the
variable's set count are skipped), scaled by the rule weight. -/
def firingStrength (vars : Fin 6 → LinguisticVar) (memb : Fin 6 → List ℚ)
    (r : Rule) : ℚ :=
  ((List.finRange 6).foldl (fun fs i =>
    let term := r.antecedent.getD i 255
    if term = DONT_CARE ∨ (vars i).sets.length ≤ term then fs
    else min fs ((memb i).getD term 0)) 1) * r.weight

/-- Sample point `x` of output variable `v` over the defuzzification
grid (`crisp_x` in the source). -/
def crispAt (v : LinguisticVar) (x : ℕ) : ℚ :=
  v.min_value + (v.max_value - v.min_value) * x / (FUZZY_RESOLUTION - 1)

/-- Accumulator of the rule loop in `evaluate`: the four aggregated
output curves (as functions of the sample index) and the diagnostics. -/
structure InferAcc where
  agg : Fin 4 → ℕ → ℚ
  active_rules : ℕ
  max_firing_strength : ℚ
  dominant_rule : ℕ

/-- One iteration of the rule loop of `evaluate`: skip disabled rules
and rules below the 0.001 strength threshold, update the diagnostics,
and max-aggregate the clipped consequent membership functions. -/
def stepRule (vars : Fin 6 → LinguisticVar) (memb : Fin 6 → List ℚ)
    (acc : InferAcc) (ri : ℕ × Rule) : InferAcc :=
  if ri.2.enabled = false then acc
  else
    let fs := firingStrength vars memb ri.2
    if fs < 1 / 1000 then acc
    else
      let acc1 := {acc with active_rules := acc.active_rules + 1}
      let acc2 :=
        if fs > acc1.max_firing_strength then
          {acc1 with max_firing_strength := fs, dominant_rule := ri.1}
        else acc1
      let aggNew : Fin 4 → ℕ → ℚ := fun o x =>
        let term := ri.2.consequent.getD o 255
        if term = DONT_CARE ∨ (outputVars o).sets.length ≤ term then acc2.agg o x
        else
          max (acc2.agg o x)
            (min (evaluateMF ((outputVars o).sets.getD term ⟨MFShape.singleton 0, ""⟩)
              (crispAt (outputVars o) x)) fs)
      {acc2 with agg := aggNew}

/-- `FuzzyController::defuzzify` — centroid over the sampled aggregated
curve; zero when the aggregated mass is below 0.001. -/
def defuzzify (v : LinguisticVar) (agg : ℕ → ℚ) : ℚ :=
  let sums := (List.range FUZZY_RESOLUTION).foldl
    (fun sw_sm x => (sw_sm.1 + crispAt v x * agg x, sw_sm.2 + agg x)) ((0 : ℚ), (0 : ℚ))
  if sums.2 < 1 / 1000 then 0 else sums.1 / sums.2

/-- `FuzzyController::evaluate` — the full Mamdani inference pass. -/
def evaluate (fc : FuzzyController) (inp : FuzzyInputs) : FuzzyResult :=
  match fc.config with
  | none => ⟨0, 0, 0, 0, 0, 0, 0⟩
  | some cfg =>
    let memb := membershipDegrees cfg fc inp
    let acc := fc.rules.enum.foldl (stepRule (inputVars cfg) memb)
      ⟨fun _ _ => 0, 0, 0, 0⟩
    { blowdown_rate := defuzzify (outputVars 0) (acc.agg 0),
      caustic_rate := defuzzify (outputVars 1) (acc.agg 1),
      sulfite_rate := defuzzify (outputVars 2) (acc.agg 2),
      acid_rate := defuzzify (outputVars 3) (acc.agg 3),
      max_firing_strength := acc.max_firing_strength,
      active_rules := acc.active_rules,
      dominant_rule := acc.dominant_rule }

/-- `FuzzyController::setManualInput`. -/
def setManualInput (param : Fin 6) (value : ℚ) (valid : Bool)
    (fc : FuzzyController) : FuzzyController :=
  {fc with
    manual_values := fun j => if j = param then value else fc.manual_values j,
    manual_valid := fun j => if j = param then valid else fc.manual_valid j}

end FuzzyController

/-- The recommendation-confidence string computed by
`BoilerWebServer::handleGetFuzzy` (web_server.cpp): conductivity always
counts as valid, the three manual test entries (alkalinity, sulfite, pH)
count when their validity flags are set. -/
def webConfidence (alk_valid sulfite_valid ph_valid : Bool) : String :=
  let valid_inputs : ℕ := 1 + (if alk_valid then 1 else 0) +
    (if sulfite_valid then 1 else 0) + (if ph_valid then 1 else 0)
  if valid_inputs = 4 then "HIGH"
  else if valid_inputs ≥ 2 then "MEDIUM"
  else "LOW"

/-! ## Helper lemmas for the blowdown controller -/

namespace BlowdownController

/-- `processHOA` is the identity in Auto mode. -/
theorem processHOA_auto (now : ℕ) (c : BlowdownController)
    (h : c.status.hoa_mode = HoaMode.auto) : processHOA now c = c := by
  simp [processHOA, h]

/-- `processContinuousMode` does nothing while waiting for a timeout reset. -/
theorem processContinuousMode_waiting (now : ℕ) (v : ℚ) (c : BlowdownController)
    (h : c.status.waiting_for_reset = true) : processContinuousMode now v c = c := by
  rcases hcfg : c.config with _ | cfg <;> simp [processContinuousMode, hcfg, h]

/-- `processIntermittentMode` does nothing while waiting for a timeout reset. -/
theorem processIntermittentMode_waiting (now : ℕ) (v : ℚ) (c : BlowdownController)
    (h : c.status.waiting_for_reset = true) : processIntermittentMode now v c = c := by
  rcases hcfg : c.config with _ | cfg <;> rcases hcc : c.cond_config with _ | cc <;>
    simp [processIntermittentMode, hcfg, hcc, h]

/-- `processTimedBlowdown` does nothing while waiting for a timeout reset. -/
theorem processTimedBlowdown_waiting (now : ℕ) (v : ℚ) (c : BlowdownController)
    (h : c.status.waiting_for_reset = true) : processTimedBlowdown now v c = c := by
  rcases hcfg : c.config with _ | cfg <;> rcases hcc : c.cond_config with _ | cc <;>
    simp [processTimedBlowdown, hcfg, hcc, h]

/-- `processTimeProportional` does nothing while waiting for a timeout reset. -/
theorem processTimeProportional_waiting (now : ℕ) (v : ℚ) (c : BlowdownController)
    (h : c.status.waiting_for_reset = true) : processTimeProportional now v c = c := by
  rcases hcfg : c.config with _ | cfg <;> rcases hcc : c.cond_config with _ | cc <;>
    simp [processTimeProportional, hcfg, hcc, h]

/-- `checkTimeout` does nothing unless a positive limit is configured, the
state is `blowingDown`, and the stored discharge time has reached the
limit. -/
theorem checkTimeout_noop (now : ℕ) (c : BlowdownController)
    (h : ∀ cfg, c.config = some cfg → 0 < cfg.time_limit_seconds →
      c.status.state = BDState.blowingDown →
      c.status.current_blowdown_time < cfg.time_limit_seconds * 1000) :
    checkTimeout now c = c := by
  rcases hcfg : c.config with _ | cfg
  · simp [checkTimeout, hcfg]
  · by_cases h0 : cfg.time_limit_seconds = 0
    · simp [checkTimeout, hcfg, h0]
    · by_cases hs : c.status.state = BDState.blowingDown
      · have := h cfg hcfg (Nat.pos_of_ne_zero h0) hs
        simp [checkTimeout, hcfg, h0, hs, not_le.mpr this]
      · simp [checkTimeout, hcfg, h0, hs]

/-- No tick clears a latched `timeout_flag`: `setRelayState`. -/
theorem setRelayState_tf (e : Bool) (c : BlowdownController) :
    (setRelayState e c).status.timeout_flag = c.status.timeout_flag := rfl

/-- No tick clears a latched `timeout_flag`: `transitionState`. -/
theorem transitionState_tf (now : ℕ) (s : BDState) (c : BlowdownController) :
    (transitionState now s c).status.timeout_flag = c.status.timeout_flag := rfl

/-- No tick clears a latched `timeout_flag`: `startBallValve`. -/
theorem startBallValve_tf (now : ℕ) (o : Bool) (c : BlowdownController) :
    (startBallValve now o c).status.timeout_flag = c.status.timeout_flag := rfl

/-- No tick clears a latched `timeout_flag`: `checkBallValveComplete`. -/
theorem checkBallValveComplete_tf (now : ℕ) (c : BlowdownController) :
    (checkBallValveComplete now c).status.timeout_flag = c.status.timeout_flag := by
  unfold checkBallValveComplete
  rcases c.config with _ | cfg
  · rfl
  · dsimp only
    split
    · split <;> rfl
    · rfl

/-- No tick clears a latched `timeout_flag`: `openValve`. -/
theorem openValve_tf (now : ℕ) (c : BlowdownController) :
    (openValve now c).status.timeout_flag = c.status.timeout_flag := by
  unfold openValve
  split
  · exact startBallValve_tf now true c
  · rfl

/-- No tick clears a latched `timeout_flag`: `closeValve`. -/
theorem closeValve_tf (now : ℕ) (c : BlowdownController) :
    (closeValve now c).status.timeout_flag = c.status.timeout_flag := by
  unfold closeValve
  split
  · exact startBallValve_tf now false c
  · dsimp only
    split <;> rfl

/-- No tick clears a latched `timeout_flag`: `processHOA`. -/
theorem processHOA_tf (now : ℕ) (c : BlowdownController) :
    (processHOA now c).status.timeout_flag = c.status.timeout_flag := by
  unfold processHOA
  rcases c.status.hoa_mode
  · rfl
  · dsimp only
    split
    · exact closeValve_tf now c
    · rfl
  · dsimp only
    split
    · exact openValve_tf now _
    · split
      · rw [show ∀ d : BlowdownController,
          ({d with status := {d.status with hoa_mode := HoaMode.auto}} :
            BlowdownController).status.timeout_flag = d.status.timeout_flag from fun _ => rfl]
        exact closeValve_tf now c
      · rfl

/-- No tick clears a latched `timeout_flag`: `processContinuousMode`. -/
theorem processContinuousMode_tf (now : ℕ) (v : ℚ) (c : BlowdownController) :
    (processContinuousMode now v c).status.timeout_flag = c.status.timeout_flag := by
  unfold processContinuousMode
  rcases c.config with _ | cfg
  · rfl
  · dsimp only
    split
    · rfl
    · split
      · split
        · exact openValve_tf now c
        · split
          · exact closeValve_tf now c
          · rfl
      · split
        · exact openValve_tf now c
        · split
          · exact closeValve_tf now c
          · rfl

/-- Timeout-flag preservation for the three sampling-cycle processors:
each branch only calls `openValve` / `closeValve` / `transitionState` and
record updates that leave `timeout_flag` alone. -/
theorem processIntermittentMode_tf (now : ℕ) (v : ℚ) (c : BlowdownController) :
    (processIntermittentMode now v c).status.timeout_flag = c.status.timeout_flag := by
  unfold processIntermittentMode
  rcases c.config with _ | cfg <;> rcases c.cond_config with _ | cc <;> try rfl
  dsimp only
  split
  · rfl
  split <;> (repeat' split) <;>
    simp [openValve_tf, closeValve_tf, transitionState_tf]

/-- Timeout-flag preservation for `processTimedBlowdown`. -/
theorem processTimedBlowdown_tf (now : ℕ) (v : ℚ) (c : BlowdownController) :
    (processTimedBlowdown now v c).status.timeout_flag = c.status.timeout_flag := by
  unfold processTimedBlowdown
  rcases c.config with _ | cfg <;> rcases c.cond_config with _ | cc <;> try rfl
  dsimp only
  split
  · rfl
  split <;> (repeat' split) <;>
    simp [openValve_tf, closeValve_tf, transitionState_tf]

/-- Timeout-flag preservation for `processTimeProportional`. -/
theorem processTimeProportional_tf (now : ℕ) (v : ℚ) (c : BlowdownController) :
    (processTimeProportional now v c).status.timeout_flag = c.status.timeout_flag := by
  unfold processTimeProportional
  rcases c.config with _ | cfg <;> rcases c.cond_config with _ | cc <;> try rfl
  dsimp only
  split
  · rfl
  split <;> (repeat' split) <;>
    simp [openValve_tf, closeValve_tf, transitionState_tf]

/-- `checkTimeout` can only set (never clear) the latched flag. -/
theorem checkTimeout_tf (now : ℕ) (c : BlowdownController)
    (h : c.status.timeout_flag = true) :
    (checkTimeout now c).status.timeout_flag = true := by
  unfold checkTimeout
  rcases c.config with _ | cfg
  · exact h
  · dsimp only
    split
    · exact h
    · split
      · split
        · rfl
        · exact h
      · exact h

/-- A latched `timeout_flag` survives every tick (it is cleared only by
`resetTimeout`). -/
theorem update_tf (now : ℕ) (v : ℚ) (f : Bool) (c : BlowdownController)
    (h : c.status.timeout_flag = true) :
    (update now v f c).status.timeout_flag = true := by
  unfold update
  dsimp only
  split
  · split
    · rw [closeValve_tf]; exact h
    · exact h
  · split
    · rw [processHOA_tf]; exact h
    · split
      · rw [checkBallValveComplete_tf, processHOA_tf]; exact h
      · have hmode : ∀ d : BlowdownController, d.status.timeout_flag = true →
          ((match d.cond_config with
            | none => processContinuousMode now v d
            | some cc =>
              match cc.sample_mode with
              | SampleMode.continuous => processContinuousMode now v d
              | SampleMode.intermittent => processIntermittentMode now v d
              | SampleMode.timedBlowdown => processTimedBlowdown now v d
              | SampleMode.timeProportional => processTimeProportional now v d) :
            BlowdownController).status.timeout_flag = true := by
          intro d hd
          rcases d.cond_config with _ | cc
          · rw [processContinuousMode_tf]; exact hd
          · rcases hm : cc.sample_mode <;>
              simp only [hm, processContinuousMode_tf, processIntermittentMode_tf,
                processTimedBlowdown_tf, processTimeProportional_tf] <;> exact hd
        split
        · rw [show ∀ d : BlowdownController, ∀ t : ℕ,
            ({d with status := {d.status with current_blowdown_time := t}} :
              BlowdownController).status.timeout_flag = d.status.timeout_flag
            from fun _ _ => rfl]
          apply checkTimeout_tf
          apply hmode
          rw [processHOA_tf]
          exact h
        · apply checkTimeout_tf
          apply hmode
          rw [processHOA_tf]
          exact h

/-- The dispatch in `update` selects the continuous-mode processor: either
no conductivity configuration is installed, or its mode is Continuous. -/
def continuousSelected (c : BlowdownController) : Prop :=
  match c.cond_config with
  | none => True
  | some cc => cc.sample_mode = SampleMode.continuous

/-- Shape of a flow-present Auto tick outside the ball-valve transition
states when the continuous mode is selected. -/
theorem update_continuous_shape (now : ℕ) (v : ℚ) (c : BlowdownController)
    (hhoa : c.status.hoa_mode = HoaMode.auto)
    (hs1 : c.status.state ≠ BDState.valveOpening)
    (hs2 : c.status.state ≠ BDState.valveClosing)
    (hm : continuousSelected c) :
    update now v true c =
      (let c3 := checkTimeout now (processContinuousMode now v
        {c with status := {c.status with last_conductivity := v}})
       if c3.status.state = BDState.blowingDown then
         {c3 with status := {c3.status with
           current_blowdown_time := now - c3.status.blowdown_start_time}}
       else c3) := by
  have hmode := hm
  unfold continuousSelected at hmode
  rcases hcc : c.cond_config with _ | cc
  · simp [update, hhoa, hs1, hs2, hcc, processHOA_auto]
  · rw [hcc] at hmode
    simp [update, hhoa, hs1, hs2, hcc, hmode, processHOA_auto]

/-- After `checkTimeout` and the end-of-tick discharge-counter refresh,
the valve flag and state are unchanged, provided no timeout can fire. -/
theorem updateTail_fields (now : ℕ) (c2 : BlowdownController)
    (h : ∀ cfg, c2.config = some cfg → 0 < cfg.time_limit_seconds →
      c2.status.state = BDState.blowingDown →
      c2.status.current_blowdown_time < cfg.time_limit_seconds * 1000) :
    (let c3 := checkTimeout now c2
     if c3.status.state = BDState.blowingDown then
       {c3 with status := {c3.status with
         current_blowdown_time := now - c3.status.blowdown_start_time}}
     else c3).status.valve_open = c2.status.valve_open ∧
    (let c3 := checkTimeout now c2
     if c3.status.state = BDState.blowingDown then
       {c3 with status := {c3.status with
         current_blowdown_time := now - c3.status.blowdown_start_time}}
     else c3).status.state = c2.status.state := by
  rw [checkTimeout_noop now c2 h]
  dsimp only
  split <;> simp

end BlowdownController

/-! ## C1 — the no-flow interlock -/

/-- A motorized-valve configuration (5-second ball valve). -/
def c1Cfg : BlowdownConfig := ⟨2500, 50, 0, 0, 5, HoaMode.auto, false, 0⟩

/-- A controller mid-discharge with the valve open, on the c1 config. -/
def c1Ctrl : BlowdownController :=
  ⟨some c1Cfg, none,
    ⟨BDState.blowingDown, true, true, HoaMode.auto, 0, 0, 0, 0, 0, false, false, 0, 0⟩,
    0, false, 0, 0, 0, 0, 0⟩

/-- C1 counterexample: with a ball-valve delay configured and the valve
open, a tick with `flow_ok = false` leaves `valve_open = true` (the state
merely becomes `ValveClosing`), so the valve is NOT closed on that same
tick and is still open after the tick while flow is absent. -/
theorem c1_counterexample :
    (BlowdownController.update 1000 2600 false c1Ctrl).status.valve_open = true ∧
    (BlowdownController.update 1000 2600 false c1Ctrl).status.state =
      BDState.valveClosing := by
  constructor <;> rfl

/-- C1 (amended): when `flow_ok = false` the interlock runs before any
HOA or sampling-mode processing and the tick does nothing but close the
valve when the `valve_open` flag is set: (a) with the flag clear the tick
changes only `last_conductivity` — in particular a tick that starts in
`ValveOpening` keeps the relay energized; (b) with the flag set the tick
is exactly `closeValve`; (c) with no ball-valve delay this closes the
valve on that same tick (flag cleared, state Idle, relay off); (d) with a
ball-valve delay the relay is de-energized and the state becomes
`ValveClosing`, but `valve_open` remains true until the transition
completes. -/
theorem c1_no_flow_interlock (now : ℕ) (v : ℚ) (c : BlowdownController) :
    (c.status.valve_open = false →
      BlowdownController.update now v false c =
        {c with status := {c.status with last_conductivity := v}}) ∧
    (c.status.valve_open = true →
      BlowdownController.update now v false c =
        BlowdownController.closeValve now
          {c with status := {c.status with last_conductivity := v}}) ∧
    (∀ cfg, c.config = some cfg → cfg.ball_valve_delay = 0 →
      c.status.valve_open = true →
      (BlowdownController.update now v false c).status.valve_open = false ∧
      (BlowdownController.update now v false c).status.state = BDState.idle ∧
      (BlowdownController.update now v false c).status.relay_energized = false) ∧
    (∀ cfg, c.config = some cfg → 0 < cfg.ball_valve_delay →
      c.status.valve_open = true →
      (BlowdownController.update now v false c).status.valve_open = true ∧
      (BlowdownController.update now v false c).status.state = BDState.valveClosing ∧
      (BlowdownController.update now v false c).status.relay_energized = false) := by
  refine ⟨fun h => ?_, fun h => ?_, fun cfg hcfg hd h => ?_, fun cfg hcfg hd h => ?_⟩
  · simp [BlowdownController.update, h]
  · simp [BlowdownController.update, h]
  · by_cases hb : c.status.state = BDState.blowingDown <;>
      simp [BlowdownController.update, BlowdownController.closeValve, h, hcfg, hd,
        BlowdownController.setRelayState, BlowdownController.transitionState, hb]
  · simp [BlowdownController.update, BlowdownController.closeValve, h, hcfg, hd,
      BlowdownController.startBallValve, BlowdownController.setRelayState,
      BlowdownController.transitionState]

/-- C1 witness: the amended statement instantiated on the concrete
ball-valve controller `c1Ctrl`. -/
theorem c1_no_flow_interlock_witness :
    (BlowdownController.update 1000 2600 false c1Ctrl).status.valve_open = true ∧
    (BlowdownController.update 1000 2600 false c1Ctrl).status.state =
      BDState.valveClosing ∧
    (BlowdownController.update 1000 2600 false c1Ctrl).status.relay_energized = false :=
  (c1_no_flow_interlock 1000 2600 c1Ctrl).2.2.2 c1Cfg rfl (by decide) rfl

namespace BlowdownController

theorem processContinuousMode_opens (now : ℕ) (v : ℚ) (c : BlowdownController)
    (cfg : BlowdownConfig) (hcfg : c.config = some cfg)
    (hwait : c.status.waiting_for_reset = false) (hdir : cfg.control_direction = 0)
    (hv : (cfg.setpoint : ℚ) < v) (hvo : c.status.valve_open = false) :
    processContinuousMode now v c = openValve now c := by
  simp [processContinuousMode, hcfg, hwait, hdir, hv, hvo]

theorem processContinuousMode_closes (now : ℕ) (v : ℚ) (c : BlowdownController)
    (cfg : BlowdownConfig) (hcfg : c.config = some cfg)
    (hwait : c.status.waiting_for_reset = false) (hdir : cfg.control_direction = 0)
    (hv : v < (cfg.setpoint : ℚ) - (cfg.deadband : ℚ)) (hvo : c.status.valve_open = true) :
    processContinuousMode now v c = closeValve now c := by
  have hnv : ¬ ((cfg.setpoint : ℚ) < v) := by
    have hdb : (0 : ℚ) ≤ (cfg.deadband : ℚ) := Nat.cast_nonneg _
    intro hgt
    linarith
  simp [processContinuousMode, hcfg, hwait, hdir, hv, hvo, hnv]

theorem processContinuousMode_noop (now : ℕ) (v : ℚ) (c : BlowdownController)
    (cfg : BlowdownConfig) (hcfg : c.config = some cfg)
    (hwait : c.status.waiting_for_reset = false) (hdir : cfg.control_direction = 0)
    (h1 : ¬ ((cfg.setpoint : ℚ) < v ∧ c.status.valve_open = false))
    (h2 : ¬ (v < (cfg.setpoint : ℚ) - (cfg.deadband : ℚ) ∧ c.status.valve_open = true)) :
    processContinuousMode now v c = c := by
  simp [processContinuousMode, hcfg, hwait, hdir]
  rw [if_neg h1, if_neg h2]

theorem openValve_solenoid (now : ℕ) (c : BlowdownController)
    (cfg : BlowdownConfig) (hcfg : c.config = some cfg)
    (hdelay : cfg.ball_valve_delay = 0) :
    openValve now c = {c with status := {c.status with
      relay_energized := true, valve_open := true, blowdown_start_time := now,
      state := BDState.blowingDown, state_start_time := now}} := by
  simp [openValve, hcfg, hdelay, setRelayState, transitionState]

theorem closeValve_solenoid (now : ℕ) (c : BlowdownController)
    (cfg : BlowdownConfig) (hcfg : c.config = some cfg)
    (hdelay : cfg.ball_valve_delay = 0) :
    (closeValve now c).status.valve_open = false ∧
    (closeValve now c).status.state = BDState.idle ∧
    (closeValve now c).config = c.config ∧
    (closeValve now c).status.current_blowdown_time =
      c.status.current_blowdown_time := by
  by_cases hb : c.status.state = BDState.blowingDown <;>
    simp [closeValve, hcfg, hdelay, setRelayState, transitionState, hb]

/-- `openValve` with a ball-valve delay only starts the motorized
transition: the valve flag is untouched. -/
theorem openValve_ballvalve (now : ℕ) (c : BlowdownController)
    (cfg : BlowdownConfig) (hcfg : c.config = some cfg)
    (hdelay : 0 < cfg.ball_valve_delay) :
    openValve now c = {c with
      valve_target_state := true, valve_action_start := now,
      status := {c.status with
                   relay_energized := true,
                   state := BDState.valveOpening,
                   state_start_time := now}} := by
  simp [openValve, hcfg, hdelay, startBallValve, setRelayState, transitionState]

theorem closeValve_ballvalve (now : ℕ) (c : BlowdownController)
    (cfg : BlowdownConfig) (hcfg : c.config = some cfg)
    (hdelay : 0 < cfg.ball_valve_delay) :
    closeValve now c = {c with
      valve_target_state := false, valve_action_start := now,
      status := {c.status with
                   relay_energized := false,
                   state := BDState.valveClosing,
                   state_start_time := now}} := by
  simp [closeValve, hcfg, hdelay, startBallValve, setRelayState, transitionState]

theorem updateTail_more (now : ℕ) (c2 : BlowdownController)
    (h : ∀ cfg, c2.config = some cfg → 0 < cfg.time_limit_seconds →
      c2.status.state = BDState.blowingDown →
      c2.status.current_blowdown_time < cfg.time_limit_seconds * 1000) :
    (let c3 := checkTimeout now c2
     if c3.status.state = BDState.blowingDown then
       {c3 with status := {c3.status with
         current_blowdown_time := now - c3.status.blowdown_start_time}}
     else c3).status.valve_open = c2.status.valve_open ∧
    (let c3 := checkTimeout now c2
     if c3.status.state = BDState.blowingDown then
       {c3 with status := {c3.status with
         current_blowdown_time := now - c3.status.blowdown_start_time}}
     else c3).status.state = c2.status.state ∧
    (let c3 := checkTimeout now c2
     if c3.status.state = BDState.blowingDown then
       {c3 with status := {c3.status with
         current_blowdown_time := now - c3.status.blowdown_start_time}}
     else c3).status.relay_energized = c2.status.relay_energized ∧
    (let c3 := checkTimeout now c2
     if c3.status.state = BDState.blowingDown then
       {c3 with status := {c3.status with
         current_blowdown_time := now - c3.status.blowdown_start_time}}
     else c3).valve_target_state = c2.valve_target_state := by
  rw [checkTimeout_noop now c2 h]
  dsimp only
  split <;> simp

end BlowdownController

/-! ## C3 — continuous-mode hysteresis -/

/-- C3 (amended): on a Continuous-mode Auto tick with flow present, HIGH
control direction, no pending timeout and not in a ball-valve transition
state: when `v > setpoint` an already-open valve stays open, and a
closed valve is opened on that same tick only when no ball-valve delay
is configured — with a delay the tick merely starts the motorized
opening (`valve_open` still false, state `ValveOpening`, relay
energized); an open valve stays open while `v ≥ setpoint − deadband`;
once `v < setpoint − deadband` a solenoid valve closes on that tick
while a ball valve only starts closing (`valve_open` still true, state
`ValveClosing`, relay off); and for `v` strictly inside the deadband the
tick changes neither the valve flag nor the state (no chatter). -/
theorem c3_continuous_hysteresis (now : ℕ) (v : ℚ) (c : BlowdownController)
    (cfg : BlowdownConfig) (hcfg : c.config = some cfg)
    (hdir : cfg.control_direction = 0)
    (hhoa : c.status.hoa_mode = HoaMode.auto)
    (hwait : c.status.waiting_for_reset = false)
    (hs1 : c.status.state ≠ BDState.valveOpening)
    (hs2 : c.status.state ≠ BDState.valveClosing)
    (hm : BlowdownController.continuousSelected c)
    (htl : cfg.time_limit_seconds = 0 ∨
      c.status.current_blowdown_time < cfg.time_limit_seconds * 1000) :
    (((cfg.setpoint : ℚ) < v → c.status.valve_open = true →
        (BlowdownController.update now v true c).status.valve_open = true) ∧
     ((cfg.setpoint : ℚ) < v → c.status.valve_open = false →
        cfg.ball_valve_delay = 0 →
        (BlowdownController.update now v true c).status.valve_open = true) ∧
     ((cfg.setpoint : ℚ) < v → c.status.valve_open = false →
        0 < cfg.ball_valve_delay →
        (BlowdownController.update now v true c).status.valve_open = false ∧
        (BlowdownController.update now v true c).status.state =
          BDState.valveOpening ∧
        (BlowdownController.update now v true c).status.relay_energized = true ∧
        (BlowdownController.update now v true c).valve_target_state = true) ∧
     (c.status.valve_open = true → (cfg.setpoint : ℚ) - (cfg.deadband : ℚ) ≤ v →
        (BlowdownController.update now v true c).status.valve_open = true) ∧
     (c.status.valve_open = true → v < (cfg.setpoint : ℚ) - (cfg.deadband : ℚ) →
        cfg.ball_valve_delay = 0 →
        (BlowdownController.update now v true c).status.valve_open = false) ∧
     (c.status.valve_open = true → v < (cfg.setpoint : ℚ) - (cfg.deadband : ℚ) →
        0 < cfg.ball_valve_delay →
        (BlowdownController.update now v true c).status.valve_open = true ∧
        (BlowdownController.update now v true c).status.state =
          BDState.valveClosing ∧
        (BlowdownController.update now v true c).status.relay_energized = false) ∧
     ((cfg.setpoint : ℚ) - (cfg.deadband : ℚ) < v → v ≤ (cfg.setpoint : ℚ) →
        (BlowdownController.update now v true c).status.valve_open =
          c.status.valve_open ∧
        (BlowdownController.update now v true c).status.state =
          c.status.state)) := by
  rw [BlowdownController.update_continuous_shape now v c hhoa hs1 hs2 hm]
  set c1 : BlowdownController :=
    {c with status := {c.status with last_conductivity := v}} with hc1def
  have hc1cfg : c1.config = some cfg := hcfg
  have hc1wait : c1.status.waiting_for_reset = false := hwait
  have hc1vo : c1.status.valve_open = c.status.valve_open := rfl
  have hc1cur : c1.status.current_blowdown_time = c.status.current_blowdown_time := rfl
  have hc1state : c1.status.state = c.status.state := rfl
  have hdb : (0 : ℚ) ≤ (cfg.deadband : ℚ) := Nat.cast_nonneg _
  have hnf : ∀ (c2 : BlowdownController), c2.config = some cfg →
      c2.status.current_blowdown_time = c.status.current_blowdown_time →
      (∀ cfg2, c2.config = some cfg2 → 0 < cfg2.time_limit_seconds →
        c2.status.state = BDState.blowingDown →
        c2.status.current_blowdown_time < cfg2.time_limit_seconds * 1000) := by
    intro c2 h2 hcur cfg2 h2' hpos hstate
    rw [h2] at h2'
    injection h2' with h2''
    subst h2''
    rcases htl with h0 | hlt
    · omega
    · rw [hcur]; exact hlt
  refine ⟨fun hv hvo => ?_, fun hv hvo hd0 => ?_, fun hv hvo hdpos => ?_,
    fun hvo hge => ?_, fun hvo hlt hd0 => ?_, fun hvo hlt hdpos => ?_,
    fun hlo hhi => ?_⟩
  · rw [BlowdownController.processContinuousMode_noop now v c1 cfg hc1cfg hc1wait hdir
      (by simp [hc1vo, hvo]) (by rintro ⟨hlt2, _⟩; exact absurd hlt2 (not_lt.mpr (by linarith)))]
    rw [(BlowdownController.updateTail_fields now c1 (hnf c1 hc1cfg hc1cur)).1, hc1vo]
    exact hvo
  · rw [BlowdownController.processContinuousMode_opens now v c1 cfg hc1cfg hc1wait hdir hv
      (hc1vo.trans hvo),
      BlowdownController.openValve_solenoid now c1 cfg hc1cfg hd0]
    rw [(BlowdownController.updateTail_fields now _ ?_).1]
    exact hnf _ hc1cfg rfl
  · rw [BlowdownController.processContinuousMode_opens now v c1 cfg hc1cfg hc1wait hdir hv
      (hc1vo.trans hvo),
      BlowdownController.openValve_ballvalve now c1 cfg hc1cfg hdpos]
    have hmore := BlowdownController.updateTail_more now
      {c1 with
         valve_target_state := true,
         valve_action_start := now,
         status :=
           {c1.status with
              relay_energized := true,
              state := BDState.valveOpening,
              state_start_time := now}}
      (by intro cfg2 hcfg2 hpos hstate; cases hstate)
    refine ⟨hmore.1.trans (hc1vo.trans hvo), hmore.2.1.trans rfl, ?_, ?_⟩
    · exact hmore.2.2.1.trans rfl
    · exact hmore.2.2.2.trans rfl
  · rw [BlowdownController.processContinuousMode_noop now v c1 cfg hc1cfg hc1wait hdir
      (by simp [hc1vo, hvo]) (by rintro ⟨h, _⟩; exact absurd h (not_lt.mpr hge))]
    rw [(BlowdownController.updateTail_fields now c1 (hnf c1 hc1cfg hc1cur)).1, hc1vo]
    exact hvo
  · rw [BlowdownController.processContinuousMode_closes now v c1 cfg hc1cfg hc1wait hdir hlt
      (hc1vo.trans hvo)]
    have hcv := BlowdownController.closeValve_solenoid now c1 cfg hc1cfg hd0
    rw [(BlowdownController.updateTail_fields now _ ?_).1, hcv.1]
    intro cfg2 hcfg2 hpos hstate
    rw [hcv.2.1] at hstate
    cases hstate
  · rw [BlowdownController.processContinuousMode_closes now v c1 cfg hc1cfg hc1wait hdir hlt
      (hc1vo.trans hvo)]
    rw [BlowdownController.closeValve_ballvalve now c1 cfg hc1cfg hdpos]
    have hmore := BlowdownController.updateTail_more now
      {c1 with
         valve_target_state := false,
         valve_action_start := now,
         status :=
           {c1.status with
              relay_energized := false,
              state := BDState.valveClosing,
              state_start_time := now}}
      (by intro cfg2 hcfg2 hpos hstate; cases hstate)
    exact ⟨hmore.1.trans (hc1vo.trans hvo), hmore.2.1.trans rfl,
      hmore.2.2.1.trans rfl⟩
  · have hnoop := BlowdownController.processContinuousMode_noop now v c1 cfg hc1cfg hc1wait hdir
      (fun h => absurd h.1 (not_lt.mpr hhi))
      (fun h => absurd h.1 (not_lt.mpr hlo.le))
    rw [hnoop]
    have ht := BlowdownController.updateTail_fields now c1 (hnf c1 hc1cfg hc1cur)
    exact ⟨ht.1.trans hc1vo, ht.2.trans hc1state⟩

/-- A solenoid-valve (no delay) continuous-mode controller at setpoint
2500, deadband 50, idle with the valve closed. -/
def c3Ctrl : BlowdownController :=
  ⟨some ⟨2500, 50, 0, 0, 0, HoaMode.auto, false, 0⟩, none,
    ⟨BDState.idle, false, false, HoaMode.auto, 0, 0, 0, 0, 0, false, false, 0, 0⟩,
    0, false, 0, 0, 0, 0, 0⟩

/-- A ball-valve (5-second delay) continuous-mode controller, idle with
the valve closed. -/
def c3bCtrl : BlowdownController :=
  ⟨some ⟨2500, 50, 0, 0, 5, HoaMode.auto, false, 0⟩, none,
    ⟨BDState.idle, false, false, HoaMode.auto, 0, 0, 0, 0, 0, false, false, 0, 0⟩,
    0, false, 0, 0, 0, 0, 0⟩

/-- C3 counterexample: on the ball-valve controller a tick with
conductivity 2600 > setpoint 2500 leaves `valve_open = false` (the state
merely becomes `ValveOpening`), so the valve is NOT open after a tick
with `v > setpoint`, contrary to the claim. -/
theorem c3_counterexample :
    (2500 : ℚ) < 2600 ∧
    (BlowdownController.update 50 2600 true c3bCtrl).status.valve_open = false ∧
    (BlowdownController.update 50 2600 true c3bCtrl).status.state =
      BDState.valveOpening := by
  refine ⟨by norm_num, ?_, ?_⟩ <;> rfl

/-- C3 witness: the amended statement instantiated on the concrete
solenoid controller (opens at 2600 on the tick) and on the ball-valve
controller (only starts opening at 2600). -/
theorem c3_continuous_hysteresis_witness :
    (BlowdownController.update 50 2600 true c3Ctrl).status.valve_open = true ∧
    (BlowdownController.update 50 2600 true c3bCtrl).status.valve_open = false ∧
    (BlowdownController.update 50 2600 true c3bCtrl).status.state =
      BDState.valveOpening := by
  have h0 := c3_continuous_hysteresis 50 2600 c3Ctrl
    ⟨2500, 50, 0, 0, 0, HoaMode.auto, false, 0⟩
    rfl rfl rfl rfl (by decide) (by decide) trivial (Or.inl rfl)
  have hb := c3_continuous_hysteresis 50 2600 c3bCtrl
    ⟨2500, 50, 0, 0, 5, HoaMode.auto, false, 0⟩
    rfl rfl rfl rfl (by decide) (by decide) trivial (Or.inl rfl)
  have hb3 := hb.2.2.1 (by norm_num) rfl (by decide)
  exact ⟨h0.2.1 (by norm_num) rfl rfl, hb3.1, hb3.2.1⟩

/-! ## C7 — sampling-cycle interval gate -/

def c7Cfg : BlowdownConfig := ⟨100, 5, 0, 0, 0, HoaMode.auto, false, 0⟩

def c7CC : CondConfig := ⟨SampleMode.intermittent, 100, 10, 10, 0, 0, 0⟩

def c7Ctrl : BlowdownController :=
  ⟨some c7Cfg, some c7CC,
    ⟨BDState.idle, false, false, HoaMode.auto, 0, 0, 0, 0, 0, false, false, 0, 0⟩,
    0, false, 0, 0, 0, 0, 0⟩

def c7a : BlowdownController := BlowdownController.update 100000 150 true c7Ctrl

def c7b : BlowdownController := BlowdownController.update 110000 50 true c7a

def c7c : BlowdownController := BlowdownController.update 120000 150 true c7b

theorem c7a_eq : c7a =
    ⟨some c7Cfg, some c7CC,
      ⟨BDState.blowingDown, true, true, HoaMode.auto, 100000, 100000, 0, 0, 0,
        false, false, 150, 0⟩,
      0, false, 100000, 100000, 0, 0, 0⟩ := by
  norm_num [c7a, c7Ctrl, c7Cfg, c7CC, BlowdownController.update,
    BlowdownController.processHOA, BlowdownController.processIntermittentMode,
    BlowdownController.openValve, BlowdownController.closeValve,
    BlowdownController.setRelayState, BlowdownController.transitionState,
    BlowdownController.checkTimeout,
    show (BDState.idle = BDState.valveOpening) = False by simp,
    show (BDState.idle = BDState.valveClosing) = False by simp,
    show (BDState.holding = BDState.valveOpening) = False by simp,
    show (BDState.holding = BDState.valveClosing) = False by simp,
    show (BDState.holding = BDState.blowingDown) = False by simp,
    show (BDState.blowingDown = BDState.valveOpening) = False by simp,
    show (BDState.blowingDown = BDState.valveClosing) = False by simp]

theorem c7b_eq : c7b =
    ⟨some c7Cfg, some c7CC,
      ⟨BDState.holding, false, false, HoaMode.auto, 110000, 100000, 0, 0, 0,
        false, false, 50, 50⟩,
      0, false, 100000, 100000, 110000, 0, 0⟩ := by
  rw [c7b, c7a_eq]
  norm_num [c7Cfg, c7CC, BlowdownController.update,
    BlowdownController.processHOA, BlowdownController.processIntermittentMode,
    BlowdownController.openValve, BlowdownController.closeValve,
    BlowdownController.setRelayState, BlowdownController.transitionState,
    BlowdownController.checkTimeout,
    show (BDState.idle = BDState.valveOpening) = False by simp,
    show (BDState.idle = BDState.valveClosing) = False by simp,
    show (BDState.holding = BDState.valveOpening) = False by simp,
    show (BDState.holding = BDState.valveClosing) = False by simp,
    show (BDState.holding = BDState.blowingDown) = False by simp,
    show (BDState.blowingDown = BDState.valveOpening) = False by simp,
    show (BDState.blowingDown = BDState.valveClosing) = False by simp]

theorem c7c_eq : c7c =
    ⟨some c7Cfg, some c7CC,
      ⟨BDState.blowingDown, true, true, HoaMode.auto, 120000, 120000, 0, 0, 0,
        false, false, 150, 50⟩,
      0, false, 100000, 120000, 110000, 0, 0⟩ := by
  rw [c7c, c7b_eq]
  norm_num [c7Cfg, c7CC, BlowdownController.update,
    BlowdownController.processHOA, BlowdownController.processIntermittentMode,
    BlowdownController.openValve, BlowdownController.closeValve,
    BlowdownController.setRelayState, BlowdownController.transitionState,
    BlowdownController.checkTimeout,
    show (BDState.idle = BDState.valveOpening) = False by simp,
    show (BDState.idle = BDState.valveClosing) = False by simp,
    show (BDState.holding = BDState.valveOpening) = False by simp,
    show (BDState.holding = BDState.valveClosing) = False by simp,
    show (BDState.holding = BDState.blowingDown) = False by simp,
    show (BDState.blowingDown = BDState.valveOpening) = False by simp,
    show (BDState.blowingDown = BDState.valveClosing) = False by simp]

/-- C7 counterexample: in Intermittent mode with interval 100 s, duration
10 s, hold 10 s, a cycle that begins at t = 100 s (valve opened), closes
at t = 110 s with conductivity below setpoint, and finds conductivity
above setpoint at the t = 120 s hold re-check, re-opens the valve at
t = 120 s — only 20 s after the cycle began, far less than the 100 s
interval — refuting the claim that the valve is never commanded open
before `interval_seconds` have elapsed since the last cycle began. -/
theorem c7_counterexample :
    c7b.status.valve_open = false ∧
    c7c.status.valve_open = true ∧
    c7c.interval_timer = 100000 ∧
    120000 - c7c.interval_timer < c7CC.interval_seconds * 1000 := by
  rw [c7b_eq, c7c_eq]
  norm_num [c7CC]

namespace BlowdownController

theorem processIntermittentMode_gate (now : ℕ) (v : ℚ) (c : BlowdownController)
    (cfg : BlowdownConfig) (cc : CondConfig) (hcfg : c.config = some cfg)
    (hcc : c.cond_config = some cc) (hwait : c.status.waiting_for_reset = false)
    (hstate : c.status.state = BDState.idle ∨ c.status.state = BDState.waiting)
    (hint : now - c.interval_timer < cc.interval_seconds * 1000) :
    processIntermittentMode now v c = c := by
  rcases hstate with h | h <;>
    simp [processIntermittentMode, hcfg, hcc, hwait, h, not_le.mpr hint]

theorem processTimedBlowdown_gate (now : ℕ) (v : ℚ) (c : BlowdownController)
    (cfg : BlowdownConfig) (cc : CondConfig) (hcfg : c.config = some cfg)
    (hcc : c.cond_config = some cc) (hwait : c.status.waiting_for_reset = false)
    (hstate : c.status.state = BDState.idle ∨ c.status.state = BDState.waiting)
    (hint : now - c.interval_timer < cc.interval_seconds * 1000) :
    processTimedBlowdown now v c = c := by
  rcases hstate with h | h <;>
    simp [processTimedBlowdown, hcfg, hcc, hwait, h, not_le.mpr hint]

theorem processTimeProportional_gate (now : ℕ) (v : ℚ) (c : BlowdownController)
    (cfg : BlowdownConfig) (cc : CondConfig) (hcfg : c.config = some cfg)
    (hcc : c.cond_config = some cc) (hwait : c.status.waiting_for_reset = false)
    (hstate : c.status.state = BDState.idle ∨ c.status.state = BDState.waiting)
    (hint : now - c.interval_timer < cc.interval_seconds * 1000) :
    processTimeProportional now v c = c := by
  rcases hstate with h | h <;>
    simp [processTimeProportional, hcfg, hcc, hwait, h, not_le.mpr hint]

end BlowdownController

/-- C7 (amended): in the Intermittent, TimedBlowdown and TimeProportional
modes, a tick that starts in `Idle` or `Waiting` opens the valve only
once `interval_seconds` have elapsed since the last cycle began (before
that the tick changes nothing but `last_conductivity`); the Holding
re-check path, however, may re-open the valve within the same cycle
after `hold_time` without waiting for the interval (see the
counterexample). -/
theorem c7_interval_gate (now : ℕ) (v : ℚ) (c : BlowdownController)
    (cfg : BlowdownConfig) (cc : CondConfig) (hcfg : c.config = some cfg)
    (hcc : c.cond_config = some cc)
    (hm : cc.sample_mode = SampleMode.intermittent ∨
      cc.sample_mode = SampleMode.timedBlowdown ∨
      cc.sample_mode = SampleMode.timeProportional)
    (hhoa : c.status.hoa_mode = HoaMode.auto)
    (hwait : c.status.waiting_for_reset = false)
    (hstate : c.status.state = BDState.idle ∨ c.status.state = BDState.waiting)
    (hint : now - c.interval_timer < cc.interval_seconds * 1000) :
    BlowdownController.update now v true c =
      {c with status := {c.status with last_conductivity := v}} := by
  have hs1 : c.status.state ≠ BDState.valveOpening := by
    rcases hstate with h | h <;> simp [h]
  have hs2 : c.status.state ≠ BDState.valveClosing := by
    rcases hstate with h | h <;> simp [h]
  unfold BlowdownController.update
  dsimp only
  rw [if_neg (by simp)]
  rw [BlowdownController.processHOA_auto now _ (by simpa using hhoa)]
  rw [if_neg (by simpa using hhoa)]
  rw [if_neg (by simp [hs1, hs2])]
  set c1 : BlowdownController :=
    {c with status := {c.status with last_conductivity := v}} with hc1def
  have hc1cfg : c1.config = some cfg := hcfg
  have hc1cc : c1.cond_config = some cc := hcc
  have hc1wait : c1.status.waiting_for_reset = false := hwait
  have hc1state : c1.status.state = BDState.idle ∨ c1.status.state = BDState.waiting :=
    hstate
  have hc1int : now - c1.interval_timer < cc.interval_seconds * 1000 := hint
  have hct : BlowdownController.checkTimeout now c1 = c1 := by
    apply BlowdownController.checkTimeout_noop
    intro cfg2 hcfg2 hpos hbd
    rcases hc1state with h | h <;> rw [h] at hbd <;> cases hbd
  have hnb : ¬ c1.status.state = BDState.blowingDown := by
    intro hbd
    rcases hc1state with h | h <;> rw [h] at hbd <;> cases hbd
  rw [hc1cc]
  dsimp only
  rcases hm with h | h | h <;> rw [h] <;> dsimp only
  · rw [BlowdownController.processIntermittentMode_gate now v c1 cfg cc hc1cfg hc1cc
      hc1wait hc1state hc1int, hct, if_neg hnb]
  · rw [BlowdownController.processTimedBlowdown_gate now v c1 cfg cc hc1cfg hc1cc
      hc1wait hc1state hc1int, hct, if_neg hnb]
  · rw [BlowdownController.processTimeProportional_gate now v c1 cfg cc hc1cfg hc1cc
      hc1wait hc1state hc1int, hct, if_neg hnb]

/-- C7 witness: the gate instantiated on the concrete intermittent
controller before its first interval has elapsed. -/
theorem c7_interval_gate_witness :
    BlowdownController.update 50000 2600 true c7Ctrl =
      {c7Ctrl with status := {c7Ctrl.status with last_conductivity := 2600}} :=
  c7_interval_gate 50000 2600 c7Ctrl c7Cfg c7CC rfl rfl (Or.inl rfl) rfl rfl
    (Or.inl rfl) (by decide)

/-! ## C6 — proportional discharge time -/

/-- C6: with a positive proportional band, the TimeProportional
discharge duration (in milliseconds, as the code computes it) is 0 for
every deviation ≤ 0, equals the claimed formula
`min(1, deviation / prop_band) × max_prop_time` expressed at millisecond
resolution (the C `(uint32_t)` cast truncates the float product) for
positive deviations, clamps exactly at `max_prop_time` (ms) for every
deviation ≥ `prop_band`, and is monotone non-decreasing in the
conductivity. -/
theorem c6_time_proportional (c : BlowdownController) (cfg : BlowdownConfig)
    (cc : CondConfig) (v : ℚ) (hcfg : c.config = some cfg)
    (hcc : c.cond_config = some cc) (hband : 0 < cc.prop_band) :
    ((v - (cfg.setpoint : ℚ) ≤ 0 →
        BlowdownController.calculateProportionalTime v c = 0) ∧
     (0 < v - (cfg.setpoint : ℚ) →
        BlowdownController.calculateProportionalTime v c =
          ⌊min 1 ((v - (cfg.setpoint : ℚ)) / (cc.prop_band : ℚ)) *
            ((cc.max_prop_time_seconds * 1000 : ℕ) : ℚ)⌋₊) ∧
     ((cc.prop_band : ℚ) ≤ v - (cfg.setpoint : ℚ) →
        BlowdownController.calculateProportionalTime v c =
          cc.max_prop_time_seconds * 1000) ∧
     (∀ v2 : ℚ, v ≤ v2 →
        BlowdownController.calculateProportionalTime v c ≤
          BlowdownController.calculateProportionalTime v2 c)) := by
  have hb : (0 : ℚ) < (cc.prop_band : ℚ) := by exact_mod_cast hband
  have key : ∀ w : ℚ, BlowdownController.calculateProportionalTime w c =
      if w - (cfg.setpoint : ℚ) ≤ 0 then 0
      else ⌊min 1 ((w - (cfg.setpoint : ℚ)) / (cc.prop_band : ℚ)) *
        ((cc.max_prop_time_seconds * 1000 : ℕ) : ℚ)⌋₊ := by
    intro w
    rw [BlowdownController.calculateProportionalTime, hcfg, hcc]
    dsimp only
    split
    · rfl
    · rename_i hpos
      congr 1
      rcases lt_or_le 1 ((w - (cfg.setpoint : ℚ)) / (cc.prop_band : ℚ)) with hgt | hle
      · rw [if_pos hgt, min_eq_left hgt.le]
      · rw [if_neg (not_lt.mpr hle), min_eq_right hle]
  refine ⟨fun h => ?_, fun h => ?_, fun h => ?_, fun v2 h12 => ?_⟩
  · rw [key, if_pos h]
  · rw [key, if_neg (not_le.mpr h)]
  · have hpos : 0 < v - (cfg.setpoint : ℚ) := lt_of_lt_of_le hb h
    rw [key, if_neg (not_le.mpr hpos)]
    have h1 : (1 : ℚ) ≤ (v - (cfg.setpoint : ℚ)) / (cc.prop_band : ℚ) :=
      (le_div_iff₀ hb).mpr (by linarith)
    rw [min_eq_left h1, one_mul, Nat.floor_natCast]
  · rw [key, key]
    split
    · exact Nat.zero_le _
    · rename_i hp1
      rw [if_neg (by push_neg at hp1 ⊢; linarith)]
      apply Nat.floor_mono
      apply mul_le_mul_of_nonneg_right _ (Nat.cast_nonneg _)
      exact min_le_min le_rfl ((div_le_div_right hb).mpr (by linarith))

/-- C6 witness: setpoint 2500, band 200, max time 600 s; at conductivity
2600 the deviation is 100, half the band, giving exactly 300000 ms, and
at 2800 (deviation ≥ band) exactly 600000 ms; 2400 gives 0. -/
def c6Ctrl : BlowdownController :=
  ⟨some ⟨2500, 50, 0, 0, 0, HoaMode.auto, false, 0⟩,
    some ⟨SampleMode.timeProportional, 3600, 300, 60, 600, 200, 600⟩,
    ⟨BDState.idle, false, false, HoaMode.auto, 0, 0, 0, 0, 0, false, false, 0, 0⟩,
    0, false, 0, 0, 0, 0, 0⟩

theorem c6_time_proportional_witness :
    BlowdownController.calculateProportionalTime 2400 c6Ctrl = 0 ∧
    BlowdownController.calculateProportionalTime 2600 c6Ctrl = 300000 ∧
    BlowdownController.calculateProportionalTime 2800 c6Ctrl = 600000 := by
  have h := c6_time_proportional c6Ctrl ⟨2500, 50, 0, 0, 0, HoaMode.auto, false, 0⟩
    ⟨SampleMode.timeProportional, 3600, 300, 60, 600, 200, 600⟩ 2600 rfl rfl (by norm_num)
  have h24 := c6_time_proportional c6Ctrl ⟨2500, 50, 0, 0, 0, HoaMode.auto, false, 0⟩
    ⟨SampleMode.timeProportional, 3600, 300, 60, 600, 200, 600⟩ 2400 rfl rfl (by norm_num)
  have h28 := c6_time_proportional c6Ctrl ⟨2500, 50, 0, 0, 0, HoaMode.auto, false, 0⟩
    ⟨SampleMode.timeProportional, 3600, 300, 60, 600, 200, 600⟩ 2800 rfl rfl (by norm_num)
  refine ⟨h24.1 (by norm_num), ?_, h28.2.2.1 (by norm_num)⟩
  rw [h.2.1 (by norm_num)]
  norm_num


/-! ## C2 — blowdown timeout latch and manual reset -/

namespace BlowdownController

/-- Config with a 5-second discharge time limit and no ball-valve delay. -/
def c2Cfg : BlowdownConfig := ⟨2500, 50, 5, 0, 0, HoaMode.auto, false, 0⟩

def c2Ctrl : BlowdownController :=
  ⟨some c2Cfg, none,
    ⟨BDState.blowingDown, true, true, HoaMode.auto, 0, 0, 5000, 0, 0, false, false, 0, 0⟩,
    0, false, 0, 0, 0, 0, 0⟩

def c2Ctrl2 : BlowdownController :=
  ⟨some c2Cfg, none,
    ⟨BDState.timeout, false, false, HoaMode.auto, 0, 0, 0, 0, 0, true, true, 0, 0⟩,
    0, false, 0, 0, 0, 0, 0⟩

/-- A ball-valve (5-second delay) controller mid-discharge at the
5-second time limit with the valve open. -/
def c2bCtrl : BlowdownController :=
  ⟨some ⟨2500, 50, 5, 0, 5, HoaMode.auto, false, 0⟩, none,
    ⟨BDState.blowingDown, true, true, HoaMode.auto, 0, 0, 5000, 0, 0, false, false, 0, 0⟩,
    0, false, 0, 0, 0, 0, 0⟩

/-- C2 counterexample: on the ball-valve controller the timeout tick
latches the flag and enters `Timeout`, but `valve_open` remains true —
`closeValve` only starts the `ValveClosing` transition and
`transitionState(Timeout)` clobbers it, so the close never completes:
the valve is still open on the next tick (and every later one while
waiting for reset), contrary to the claimed force-close. -/
theorem c2_counterexample :
    (BlowdownController.checkTimeout 9000 c2bCtrl).status.timeout_flag = true ∧
    (BlowdownController.checkTimeout 9000 c2bCtrl).status.state = BDState.timeout ∧
    (BlowdownController.checkTimeout 9000 c2bCtrl).status.valve_open = true ∧
    (BlowdownController.update 10000 2600 true
      (BlowdownController.checkTimeout 9000 c2bCtrl)).status.valve_open = true ∧
    (BlowdownController.update 10000 2600 true
      (BlowdownController.checkTimeout 9000 c2bCtrl)).status.state =
      BDState.timeout := by
  refine ⟨rfl, rfl, rfl, rfl, rfl⟩

/-- C2 (amended): (1) with a positive time limit and NO ball-valve
delay, the timeout tick force-closes the valve, latches `timeout_flag`
and `waiting_for_reset`, enters `Timeout` and records the flag in the
stored config; (2) with a ball-valve delay configured the same tick
latches the flags, de-energizes the relay and enters `Timeout`, but
leaves `valve_open` unchanged — the motorized close is started and then
clobbered, so an open valve stays open; (3) while waiting for reset in
Auto with flow present, a tick changes nothing but `last_conductivity`
(no automatic action in any sampling mode, hence no completion of the
close either); (4) `timeout_flag` stays true across every tick until
reset; (5) `resetTimeout` clears both flags and returns the state to
`Idle`. -/
theorem c2_timeout_policy :
    (∀ (now : ℕ) (c : BlowdownController) (cfg : BlowdownConfig),
      c.config = some cfg → 0 < cfg.time_limit_seconds → cfg.ball_valve_delay = 0 →
      c.status.state = BDState.blowingDown →
      cfg.time_limit_seconds * 1000 ≤ c.status.current_blowdown_time →
      (BlowdownController.checkTimeout now c).status.timeout_flag = true ∧
      (BlowdownController.checkTimeout now c).status.waiting_for_reset = true ∧
      (BlowdownController.checkTimeout now c).status.state = BDState.timeout ∧
      (BlowdownController.checkTimeout now c).status.valve_open = false ∧
      (BlowdownController.checkTimeout now c).status.relay_energized = false ∧
      (BlowdownController.checkTimeout now c).config =
        some {cfg with timeout_flag := true}) ∧
    (∀ (now : ℕ) (c : BlowdownController) (cfg : BlowdownConfig),
      c.config = some cfg → 0 < cfg.time_limit_seconds → 0 < cfg.ball_valve_delay →
      c.status.state = BDState.blowingDown →
      cfg.time_limit_seconds * 1000 ≤ c.status.current_blowdown_time →
      (BlowdownController.checkTimeout now c).status.timeout_flag = true ∧
      (BlowdownController.checkTimeout now c).status.waiting_for_reset = true ∧
      (BlowdownController.checkTimeout now c).status.state = BDState.timeout ∧
      (BlowdownController.checkTimeout now c).status.valve_open =
        c.status.valve_open ∧
      (BlowdownController.checkTimeout now c).status.relay_energized = false ∧
      (BlowdownController.checkTimeout now c).config =
        some {cfg with timeout_flag := true}) ∧
    (∀ (now : ℕ) (v : ℚ) (c : BlowdownController),
      c.status.hoa_mode = HoaMode.auto → c.status.waiting_for_reset = true →
      c.status.state = BDState.timeout →
      BlowdownController.update now v true c =
        {c with status := {c.status with last_conductivity := v}}) ∧
    (∀ (now : ℕ) (v : ℚ) (f : Bool) (c : BlowdownController),
      c.status.timeout_flag = true →
      (BlowdownController.update now v f c).status.timeout_flag = true) ∧
    (∀ (now : ℕ) (c : BlowdownController),
      (BlowdownController.resetTimeout now c).status.timeout_flag = false ∧
      (BlowdownController.resetTimeout now c).status.waiting_for_reset = false ∧
      (BlowdownController.resetTimeout now c).status.state = BDState.idle) := by
  refine ⟨?_, ?_, ?_, ?_, ?_⟩
  · intro now c cfg hcfg hpos hdelay hstate hcur
    have h0 : ¬ cfg.time_limit_seconds = 0 := by omega
    simp [checkTimeout, hcfg, h0, hstate, hcur, closeValve, hdelay,
      setRelayState, transitionState]
  · intro now c cfg hcfg hpos hdpos hstate hcur
    have h0 : ¬ cfg.time_limit_seconds = 0 := by omega
    simp [checkTimeout, hcfg, h0, hstate, hcur, closeValve, hdpos,
      startBallValve, setRelayState, transitionState]
  · intro now v c hhoa hwait hstate
    have hs1 : c.status.state ≠ BDState.valveOpening := by simp [hstate]
    have hs2 : c.status.state ≠ BDState.valveClosing := by simp [hstate]
    unfold update
    dsimp only
    rw [if_neg (by simp)]
    rw [processHOA_auto now _ (by simpa using hhoa)]
    rw [if_neg (by simpa using hhoa)]
    rw [if_neg (by simp [hs1, hs2])]
    set c1 : BlowdownController :=
      {c with status := {c.status with last_conductivity := v}} with hc1def
    have hc1wait : c1.status.waiting_for_reset = true := hwait
    have hc1state : c1.status.state = BDState.timeout := hstate
    have hproc1 : processContinuousMode now v c1 = c1 :=
      processContinuousMode_waiting now v c1 hc1wait
    have hproc2 : processIntermittentMode now v c1 = c1 :=
      processIntermittentMode_waiting now v c1 hc1wait
    have hproc3 : processTimedBlowdown now v c1 = c1 :=
      processTimedBlowdown_waiting now v c1 hc1wait
    have hproc4 : processTimeProportional now v c1 = c1 :=
      processTimeProportional_waiting now v c1 hc1wait
    have hct : checkTimeout now c1 = c1 := by
      apply checkTimeout_noop
      intro cfg2 hcfg2 hpos hbd
      rw [hc1state] at hbd
      cases hbd
    have hnb : ¬ c1.status.state = BDState.blowingDown := by
      rw [hc1state]
      simp
    rcases hcc : c.cond_config with _ | cc
    · dsimp only
      rw [hproc1, hct, if_neg hnb]
    · dsimp only
      rcases cc.sample_mode <;> dsimp only <;>
        simp only [hproc1, hproc2, hproc3, hproc4, hct, if_neg hnb]
  · intro now v f c h
    exact update_tf now v f c h
  · intro now c
    rcases hcfg : c.config with _ | cfg <;>
      simp [resetTimeout, hcfg, transitionState]

theorem c2_timeout_policy_witness :
    ((BlowdownController.checkTimeout 9000 c2Ctrl).status.timeout_flag = true ∧
      (BlowdownController.checkTimeout 9000 c2Ctrl).status.state = BDState.timeout ∧
      (BlowdownController.checkTimeout 9000 c2Ctrl).status.valve_open = false) ∧
    ((BlowdownController.checkTimeout 9000 c2bCtrl).status.waiting_for_reset = true ∧
      (BlowdownController.checkTimeout 9000 c2bCtrl).status.valve_open =
        c2bCtrl.status.valve_open ∧
      (BlowdownController.checkTimeout 9000 c2bCtrl).status.relay_energized = false) ∧
    BlowdownController.update 10000 2600 true c2Ctrl2 =
      {c2Ctrl2 with status := {c2Ctrl2.status with last_conductivity := 2600}} ∧
    (BlowdownController.update 10000 2600 false c2Ctrl2).status.timeout_flag = true ∧
    (BlowdownController.resetTimeout 11000 c2Ctrl2).status.timeout_flag = false :=
  ⟨⟨(c2_timeout_policy.1 9000 c2Ctrl c2Cfg rfl (by decide) rfl rfl (by decide)).1,
    (c2_timeout_policy.1 9000 c2Ctrl c2Cfg rfl (by decide) rfl rfl (by decide)).2.2.1,
    (c2_timeout_policy.1 9000 c2Ctrl c2Cfg rfl (by decide) rfl rfl (by decide)).2.2.2.1⟩,
   ⟨(c2_timeout_policy.2.1 9000 c2bCtrl ⟨2500, 50, 5, 0, 5, HoaMode.auto, false, 0⟩
      rfl (by decide) (by decide) rfl (by decide)).2.1,
    (c2_timeout_policy.2.1 9000 c2bCtrl ⟨2500, 50, 5, 0, 5, HoaMode.auto, false, 0⟩
      rfl (by decide) (by decide) rfl (by decide)).2.2.2.1,
    (c2_timeout_policy.2.1 9000 c2bCtrl ⟨2500, 50, 5, 0, 5, HoaMode.auto, false, 0⟩
      rfl (by decide) (by decide) rfl (by decide)).2.2.2.2.1⟩,
   c2_timeout_policy.2.2.1 10000 2600 c2Ctrl2 rfl rfl rfl,
   c2_timeout_policy.2.2.2.1 10000 2600 false c2Ctrl2 rfl,
   (c2_timeout_policy.2.2.2.2 11000 c2Ctrl2).1⟩

end BlowdownController


/-! ## C4 — pump runtime limit and lockout window -/

namespace ChemicalPump


/-- C4: (1) a running pump whose current-run runtime has reached a
positive `time_limit_seconds` is stopped by `checkTimeout` and its state
becomes `LockedOut`; (2) from `LockedOut`, `start` is refused outright
while `now < lockout_end_time`; (3) once `lockout_end_time` has passed,
a `start` on an enabled pump leaves `LockedOut` and runs the pump. -/
theorem c4_lockout :
    (∀ (p : ChemicalPump) (cfg : PumpConfig),
      p.config = some cfg → 0 < cfg.time_limit_seconds →
      p.status.running = true →
      cfg.time_limit_seconds * 1000 ≤ p.status.runtime_ms →
      (ChemicalPump.checkTimeout p).status.running = false ∧
      (ChemicalPump.checkTimeout p).status.state = PumpState.lockedOut) ∧
    (∀ (now duration_ms : ℕ) (volume_ml : ℚ) (p : ChemicalPump),
      p.status.state = PumpState.lockedOut → now < p.status.lockout_end_time →
      ChemicalPump.start now duration_ms volume_ml p = p) ∧
    (∀ (now duration_ms : ℕ) (volume_ml : ℚ) (p : ChemicalPump),
      p.status.state = PumpState.lockedOut → p.status.lockout_end_time ≤ now →
      p.status.enabled = true →
      (ChemicalPump.start now duration_ms volume_ml p).status.running = true ∧
      (ChemicalPump.start now duration_ms volume_ml p).status.state =
        PumpState.running) := by
  refine ⟨?_, ?_, ?_⟩
  · intro p cfg hcfg hpos hrun hge
    refine ⟨?_, ?_⟩ <;> simp [checkTimeout, hcfg, hrun, hpos, hge, stop] <;>
      split <;> rfl
  · intro now d v p hstate hlt
    rcases hen : p.status.enabled with _ | _
    · simp [start, hen]
    · simp [start, hen, hstate, hlt]
  · intro now d v p hstate hle hen
    have hn : ¬ (p.status.state = PumpState.lockedOut ∧
        now < p.status.lockout_end_time) := by
      rintro ⟨-, h⟩
      omega
    unfold start
    rw [if_neg (by simp [hen]), if_neg hn, if_pos hstate]
    rcases hc : p.config with _ | cfg
    · dsimp only
      split <;> simp
    · dsimp only
      split
      · split <;> simp
      · split <;> simp



def c4Cfg : PumpConfig :=
  ⟨true, FeedMode.modeB, HoaMode.auto, 0, 50, 0, 0, 0, 0, 0, 0, 0, 30, 0⟩

def c4Pump : ChemicalPump :=
  ⟨some c4Cfg, ⟨PumpState.running, true, true, HoaMode.auto, 0, 30000, 0, 0, 0, 0, 0, 0, 0⟩,
    ⟨0, 0⟩, 0, 0, false, false, 0, false, 0⟩

def c4Locked : ChemicalPump :=
  ⟨some c4Cfg, ⟨PumpState.lockedOut, true, false, HoaMode.auto, 0, 0, 0, 0, 0, 5000, 0, 0, 0⟩,
    ⟨0, 0⟩, 0, 0, false, false, 0, false, 0⟩

theorem c4_lockout_witness :
    ((ChemicalPump.checkTimeout c4Pump).status.running = false ∧
      (ChemicalPump.checkTimeout c4Pump).status.state = PumpState.lockedOut) ∧
    ChemicalPump.start 1000 0 0 c4Locked = c4Locked ∧
    ((ChemicalPump.start 6000 0 0 c4Locked).status.running = true ∧
      (ChemicalPump.start 6000 0 0 c4Locked).status.state = PumpState.running) :=
  ⟨c4_lockout.1 c4Pump c4Cfg rfl (by decide) rfl (by decide),
   c4_lockout.2.1 1000 0 0 c4Locked rfl (by decide),
   c4_lockout.2.2 6000 0 0 c4Locked rfl (by decide) rfl⟩



end ChemicalPump

/-! ## C5 — Mode-B percent-of-blowdown feed -/

namespace ChemicalPump

/-- Mode-B feed duration exactly as chemical_pump.cpp computes it: the
`uint32` product of accumulated blowdown (ms) and percent, divided by
100 (integer division), then capped at `max_time_seconds * 1000` when a
cap is configured. -/
def modeBFeedTime (cfg : PumpConfig) (p : ChemicalPump) : ℕ :=
  let feed_time := p.mode_b_accumulated_blowdown * cfg.percent_of_blowdown % 2 ^ 32 / 100
  if cfg.max_time_seconds > 0 then
    if feed_time > cfg.max_time_seconds * 1000 then cfg.max_time_seconds * 1000
    else feed_time
  else feed_time

theorem processModeB_inactive (now bt : ℕ) (cfg : PumpConfig) (p : ChemicalPump)
    (hrun : p.status.running = false) (hacc : 0 < p.mode_b_accumulated_blowdown) :
    ChemicalPump.processModeB now cfg false bt p =
      {(if modeBFeedTime cfg p > 0 then
          ChemicalPump.start now (modeBFeedTime cfg p) 0 p else p) with
        mode_b_accumulated_blowdown := 0} := by
  have hcond : p.mode_b_accumulated_blowdown > 0 ∧ p.status.running = false :=
    ⟨hacc, hrun⟩
  unfold ChemicalPump.processModeB modeBFeedTime
  rw [if_neg (by simp), if_pos hcond]

def c5Cfg : PumpConfig :=
  ⟨true, FeedMode.modeB, HoaMode.auto, 0, 2, 0, 0, 0, 0, 0, 0, 0, 0, 0⟩

def c5Pump : ChemicalPump :=
  ⟨some c5Cfg, ⟨PumpState.idle, true, false, HoaMode.auto, 0, 0, 0, 0, 0, 0, 0, 0, 0⟩,
    ⟨0, 0⟩, 0, 0, false, false, 40, false, 0⟩

/-- C5 counterexample: accumulated blowdown 40 ms at percent 2 gives a
positive ideal duration (40·2/100 = 0.8 ms), but the integer division
yields 0, so the pump is NOT started even though the claim requires a
start with a positive proportional duration; the accumulator is still
cleared, so the feed credit is silently lost. -/
theorem c5_counterexample :
    0 < c5Pump.mode_b_accumulated_blowdown * c5Cfg.percent_of_blowdown ∧
    (ChemicalPump.processModeB 0 c5Cfg false 0 c5Pump).status.running = false ∧
    (ChemicalPump.processModeB 0 c5Cfg false 0 c5Pump).time_limited = false ∧
    (ChemicalPump.processModeB 0 c5Cfg false 0 c5Pump).mode_b_accumulated_blowdown
      = 0 :=
  ⟨by decide, rfl, rfl, rfl⟩

/-- C5 (amended): on the first inactive tick with a positive
accumulator, Mode B clears the accumulator and starts the pump for
`modeBFeedTime` = (accumulated × percent mod 2³²) / 100 milliseconds
(integer division, capped at `max_time_seconds × 1000`) — but only when
that integer duration is positive; when it rounds to zero (accumulated ×
percent < 100) no start occurs and the credit is lost, contrary to the
claimed unconditional start at exactly a × percent / 100 ms. -/
theorem c5_mode_b_feed (now bt : ℕ) (cfg : PumpConfig) (p : ChemicalPump)
    (hrun : p.status.running = false) (hacc : 0 < p.mode_b_accumulated_blowdown) :
    ((ChemicalPump.processModeB now cfg false bt p).mode_b_accumulated_blowdown
      = 0) ∧
    (modeBFeedTime cfg p = 0 →
      ChemicalPump.processModeB now cfg false bt p =
        {p with mode_b_accumulated_blowdown := 0}) ∧
    (0 < modeBFeedTime cfg p → p.status.state = PumpState.idle →
      p.status.enabled = true →
      (ChemicalPump.processModeB now cfg false bt p).status.running = true ∧
      (ChemicalPump.processModeB now cfg false bt p).status.state
        = PumpState.running ∧
      (ChemicalPump.processModeB now cfg false bt p).target_time_ms
        = modeBFeedTime cfg p ∧
      (ChemicalPump.processModeB now cfg false bt p).time_limited = true) := by
  rw [processModeB_inactive now bt cfg p hrun hacc]
  refine ⟨rfl, ?_, ?_⟩
  · intro hft
    rw [if_neg (by omega)]
  · intro hft hidle hen
    rw [if_pos hft]
    have hnl : ¬ (p.status.state = PumpState.lockedOut ∧
        now < p.status.lockout_end_time) := by
      rintro ⟨h, -⟩
      rw [hidle] at h
      cases h
    have hnl2 : ¬ p.status.state = PumpState.lockedOut := by
      rw [hidle]
      simp
    unfold ChemicalPump.start
    rw [if_neg (by simp [hen]), if_neg hnl, if_neg hnl2]
    dsimp only
    rcases hc : p.config with _ | cfg2
    · dsimp only
      rw [if_pos hft]
      exact ⟨rfl, rfl, rfl, rfl⟩
    · dsimp only
      rw [if_neg (show ¬ ((0:ℚ) > 0 ∧ cfg2.steps_per_ml > 0) by simp)]
      dsimp only
      rw [if_pos hft]
      exact ⟨rfl, rfl, rfl, rfl⟩


def c5CfgW : PumpConfig :=
  ⟨true, FeedMode.modeB, HoaMode.auto, 0, 2, 0, 0, 0, 0, 0, 0, 0, 0, 0⟩

def c5PumpW : ChemicalPump :=
  ⟨some c5CfgW, ⟨PumpState.idle, true, false, HoaMode.auto, 0, 0, 0, 0, 0, 0, 0, 0, 0⟩,
    ⟨0, 0⟩, 0, 0, false, false, 30000, false, 0⟩

theorem c5_mode_b_feed_witness :
    (ChemicalPump.processModeB 0 c5CfgW false 0 c5PumpW).status.running = true ∧
    (ChemicalPump.processModeB 0 c5CfgW false 0 c5PumpW).target_time_ms = 600 := by
  have h := c5_mode_b_feed 0 0 c5CfgW c5PumpW rfl (by decide)
  have h3 := h.2.2 (by decide) rfl rfl
  exact ⟨h3.1, by rw [h3.2.2.1]; decide⟩


end ChemicalPump


/-! ## C10 — shared Hand-mode timestamp across pump instances -/

/-- An enabled pump with no configuration record, idle, in the given HOA
mode (used for the shared-timestamp trace). -/
def c10Pump (h : HoaMode) : ChemicalPump :=
  ⟨none, ⟨PumpState.idle, true, false, h, 0, 0, 0, 0, 0, 0, 0, 0, 0⟩,
    ⟨0, 0⟩, 0, 0, false, false, 0, false, 0⟩

def c10m0 : PumpManager := ⟨c10Pump HoaMode.hand, c10Pump HoaMode.auto,
  c10Pump HoaMode.auto, 0, false⟩

def c10m1 : PumpManager := PumpManager.update 0 c10m0

def c10m1h : PumpManager :=
  {c10m1 with pump1 := ChemicalPump.setHOA HoaMode.hand c10m1.pump1}

def c10m2 : PumpManager := PumpManager.update 300000 c10m1h

def c10m3 : PumpManager := PumpManager.update 600000 c10m2

def c10n2 : PumpManager := PumpManager.update 300000 c10m1

def c10n3 : PumpManager := PumpManager.update 600000 c10n2

/-- C10: the Hand-mode timeout timestamp is one variable shared by all
three pumps.  Pump 0 enters Hand at t = 0 (timestamp 0); when pump 1
enters Hand at t = 300000 the shared timestamp is overwritten with
300000, so at t = 600000 pump 0 is NOT reverted to Auto (its 600 s are
now measured from pump 1's start) — whereas in the identical trace
without pump 1's Hand request, pump 0 does revert to Auto at
t = 600000. -/
theorem c10_shared_hand_timestamp :
    c10m1.hand_start_time = 0 ∧
    c10m1.pump0.status.hoa_mode = HoaMode.hand ∧
    c10m2.hand_start_time = 300000 ∧
    c10m3.pump0.status.hoa_mode = HoaMode.hand ∧
    c10m3.pump0.status.running = false ∧
    c10n3.hand_start_time = 0 ∧
    c10n3.pump0.status.hoa_mode = HoaMode.auto := by
  decide



/-! ## C8 — invalid manual inputs default to the Normal term -/

namespace FuzzyController

theorem membershipDegrees_invalid (cfg : FuzzyConfig) (fc : FuzzyController)
    (inp : FuzzyInputs) (i : Fin 6) (hlt : i.val < 4)
    (hinv : fc.manual_valid i = false) :
    membershipDegrees cfg fc inp i = normalDefault := by
  fin_cases i
  · have h0 : fc.manual_valid 0 = false := hinv
    simp only [membershipDegrees, h0, Bool.false_eq_true, if_false]
  · have h0 : fc.manual_valid 1 = false := hinv
    simp only [membershipDegrees, h0, Bool.false_eq_true, if_false]
  · have h0 : fc.manual_valid 2 = false := hinv
    simp only [membershipDegrees, h0, Bool.false_eq_true, if_false]
  · have h0 : fc.manual_valid 3 = false := hinv
    simp only [membershipDegrees, h0, Bool.false_eq_true, if_false]
  · exact absurd hlt (by decide)
  · exact absurd hlt (by decide)

theorem evaluate_invalid_frame (fc : FuzzyController) (inp : FuzzyInputs)
    (i : Fin 6) (v : ℚ) (hinv : fc.manual_valid i = false) :
    evaluate (setManualInput i v false fc) inp = evaluate fc inp := by
  have key : ∀ (cfg : FuzzyConfig) (k : Fin 6),
      (if (setManualInput i v false fc).manual_valid k then
        fuzzify (inputVars cfg k) ((setManualInput i v false fc).manual_values k)
      else normalDefault) =
      (if fc.manual_valid k then
        fuzzify (inputVars cfg k) (fc.manual_values k)
      else normalDefault) := by
    intro cfg k
    have hv' : (setManualInput i v false fc).manual_valid k =
        if k = i then false else fc.manual_valid k := rfl
    have hm' : (setManualInput i v false fc).manual_values k =
        if k = i then v else fc.manual_values k := rfl
    by_cases hk : k = i
    · rw [hv', if_pos hk]
      have h2 : fc.manual_valid k = false := hk ▸ hinv
      simp only [h2, Bool.false_eq_true, if_false]
    · rw [hv', hm', if_neg hk, if_neg hk]
  have hmemb : ∀ cfg, membershipDegrees cfg (setManualInput i v false fc) inp =
      membershipDegrees cfg fc inp := by
    intro cfg
    funext j
    fin_cases j
    · simp only [membershipDegrees]
      exact key cfg 0
    · simp only [membershipDegrees]
      exact key cfg 1
    · simp only [membershipDegrees]
      exact key cfg 2
    · simp only [membershipDegrees]
      exact key cfg 3
    · simp only [membershipDegrees]
    · simp only [membershipDegrees]
  have hcfg2 : (setManualInput i v false fc).config = fc.config := rfl
  have hrules : (setManualInput i v false fc).rules = fc.rules := rfl
  unfold evaluate
  rw [hcfg2]
  rcases hc : fc.config with _ | cfg
  · rfl
  · dsimp only
    rw [hmemb, hrules]

end FuzzyController

def c8cfg : FuzzyConfig := ⟨2500, 100, 400, 50, 40, 10, 11, 1/2⟩

/-- Controller whose alkalinity entry (input 1) is flagged invalid. -/
def c8fc : FuzzyController :=
  ⟨some c8cfg, defaultRules, fun _ => 0,
    fun j => if j = 1 then false else true⟩

def c8inp : FuzzyInputs := ⟨2500, 0, 40, 11, 50, 0, false, true, true⟩

/-- C8: an invalid manual input is replaced by the Normal-default
membership vector (full membership in term 2, zero elsewhere), term 2 of
each manual variable is named "Normal", and inference is otherwise
unaffected by the cached value of an invalid channel. -/
theorem c8_invalid_input_normal :
    (∀ (cfg : FuzzyConfig) (fc : FuzzyController) (inp : FuzzyInputs) (i : Fin 6),
      i.val < 4 → fc.manual_valid i = false →
      FuzzyController.membershipDegrees cfg fc inp i =
        FuzzyController.normalDefault) ∧
    (FuzzyController.normalDefault.getD 2 0 = 1 ∧
      ∀ j : ℕ, j ≠ 2 → FuzzyController.normalDefault.getD j 0 = 0) ∧
    (∀ (cfg : FuzzyConfig) (i : Fin 6), i.val < 4 →
      ((inputVars cfg i).sets.getD 2 ⟨MFShape.singleton 0, ""⟩).name = "Normal") ∧
    (∀ (fc : FuzzyController) (inp : FuzzyInputs) (i : Fin 6) (v : ℚ),
      fc.manual_valid i = false →
      FuzzyController.evaluate (FuzzyController.setManualInput i v false fc) inp =
        FuzzyController.evaluate fc inp) := by
  refine ⟨FuzzyController.membershipDegrees_invalid, ⟨rfl, ?_⟩, ?_,
    FuzzyController.evaluate_invalid_frame⟩
  · intro j hj
    rcases j with _ | _ | _ | _ | _ | _ | _ | j
    · rfl
    · rfl
    · exact absurd rfl hj
    · rfl
    · rfl
    · rfl
    · rfl
    · rfl
  · intro cfg i hlt
    fin_cases i
    · rfl
    · rfl
    · rfl
    · rfl
    · exact absurd hlt (by decide)
    · exact absurd hlt (by decide)

theorem c8_invalid_input_normal_witness :
    FuzzyController.membershipDegrees c8cfg c8fc c8inp 1 =
      FuzzyController.normalDefault ∧
    FuzzyController.normalDefault.getD 2 0 = 1 ∧
    FuzzyController.normalDefault.getD 0 0 = 0 ∧
    ((inputVars c8cfg 1).sets.getD 2 ⟨MFShape.singleton 0, ""⟩).name = "Normal" ∧
    FuzzyController.evaluate (FuzzyController.setManualInput 1 12345 false c8fc)
      c8inp = FuzzyController.evaluate c8fc c8inp :=
  ⟨c8_invalid_input_normal.1 c8cfg c8fc c8inp 1 (by decide) rfl,
   c8_invalid_input_normal.2.1.1,
   c8_invalid_input_normal.2.1.2 0 (by decide),
   c8_invalid_input_normal.2.2.1 c8cfg 1 (by decide),
   c8_invalid_input_normal.2.2.2 c8fc c8inp 1 12345 rfl⟩



/-! ## C9 — at-setpoint fuzzy evaluation -/

namespace FuzzyController


theorem aggIte (c : Prop) [Decidable c] (s t : InferAcc) :
    (if c then s else t).agg = if c then s.agg else t.agg :=
  apply_ite InferAcc.agg c s t

theorem stepRule_agg (vars : Fin 6 → LinguisticVar) (memb : Fin 6 → List ℚ)
    (acc : InferAcc) (ri : ℕ × Rule) (o : Fin 4) (x : ℕ) :
    (stepRule vars memb acc ri).agg o x =
      if ri.2.enabled = false then acc.agg o x
      else if firingStrength vars memb ri.2 < 1 / 1000 then acc.agg o x
      else if ri.2.consequent.getD o 255 = DONT_CARE ∨
          (outputVars o).sets.length ≤ ri.2.consequent.getD o 255 then acc.agg o x
      else
        max (acc.agg o x)
          (min (evaluateMF ((outputVars o).sets.getD (ri.2.consequent.getD o 255)
              ⟨MFShape.singleton 0, ""⟩) (crispAt (outputVars o) x))
            (firingStrength vars memb ri.2)) := by
  by_cases h1 : ri.2.enabled = false
  · simp only [stepRule, if_pos h1]
  · simp only [stepRule, if_neg h1]
    by_cases h2 : firingStrength vars memb ri.2 < 1 / 1000
    · simp only [if_pos h2]
    · simp only [if_neg h2, aggIte]
      by_cases h3 : ri.2.consequent.getD o 255 = DONT_CARE ∨
          (outputVars o).sets.length ≤ ri.2.consequent.getD o 255
      · simp only [if_pos h3, ite_self]
      · simp only [if_neg h3, ite_self]

def cfg9 : FuzzyConfig := ⟨2500, 100, 400, 50, 40, 10, 11, 1/2⟩

def fc9 : FuzzyController :=
  { config := some cfg9
    rules := defaultRules
    manual_values := fun i =>
      if i = 0 then 2500 else if i = 1 then 400 else if i = 2 then 40
      else if i = 3 then 11 else 0
    manual_valid := fun _ => true }

def inp9 : FuzzyInputs := ⟨2500, 400, 40, 11, 50, 0, true, true, true⟩

theorem mv9_0 : fc9.manual_values 0 = 2500 := rfl
theorem mv9_1 : fc9.manual_values 1 = 400 := rfl
theorem mv9_2 : fc9.manual_values 2 = 40 := rfl
theorem mv9_3 : fc9.manual_values 3 = 11 := rfl
theorem valid9 : ∀ i, fc9.manual_valid i = true := fun _ => rfl

def memb9 : Fin 6 → List ℚ := membershipDegrees cfg9 fc9 inp9

def vars9 : Fin 6 → LinguisticVar := inputVars cfg9

def step9 : InferAcc → ℕ × Rule → InferAcc := stepRule vars9 memb9

def c9highClip (x : ℕ) : ℚ :=
  min (evaluateMF ⟨MFShape.triangular 50 75 100, "High"⟩ (crispAt (outputVars 0) x)) (4/5)

def c9lowClip (x : ℕ) : ℚ :=
  min (evaluateMF ⟨MFShape.triangular 0 25 50, "Low"⟩ (crispAt (outputVars 0) x)) (7/10)

def acc9_0 : InferAcc := ⟨fun _ _ => 0, 0, 0, 0⟩

def acc9_1 : InferAcc := step9 acc9_0 (0, ⟨[6, 255, 255, 255, 255, 255], [6, 255, 255, 255], 1, true⟩)

def acc9_2 : InferAcc := step9 acc9_1 (1, ⟨[5, 255, 255, 255, 255, 255], [5, 255, 255, 255], 1, true⟩)

def acc9_3 : InferAcc := step9 acc9_2 (2, ⟨[3, 255, 255, 255, 255, 255], [0, 255, 255, 255], 1, true⟩)

def acc9_4 : InferAcc := step9 acc9_3 (3, ⟨[1, 255, 255, 255, 255, 255], [0, 255, 255, 255], 1, true⟩)

def acc9_5 : InferAcc := step9 acc9_4 (4, ⟨[5, 255, 255, 255, 255, 6], [6, 255, 255, 255], 1, true⟩)

def acc9_6 : InferAcc := step9 acc9_5 (5, ⟨[255, 0, 255, 255, 255, 255], [255, 6, 255, 255], 1, true⟩)

def acc9_7 : InferAcc := step9 acc9_6 (6, ⟨[255, 1, 255, 255, 255, 255], [255, 5, 255, 255], 1, true⟩)

def acc9_8 : InferAcc := step9 acc9_7 (7, ⟨[255, 3, 255, 255, 255, 255], [255, 0, 255, 255], 1, true⟩)

def acc9_9 : InferAcc := step9 acc9_8 (8, ⟨[255, 5, 255, 255, 255, 255], [3, 0, 255, 255], 4/5, true⟩)

def acc9_10 : InferAcc := step9 acc9_9 (9, ⟨[255, 6, 255, 255, 255, 255], [5, 0, 255, 255], 9/10, true⟩)

def acc9_11 : InferAcc := step9 acc9_10 (10, ⟨[255, 255, 0, 255, 255, 255], [255, 255, 6, 255], 1, true⟩)

def acc9_12 : InferAcc := step9 acc9_11 (11, ⟨[255, 255, 1, 255, 255, 255], [255, 255, 5, 255], 1, true⟩)

def acc9_13 : InferAcc := step9 acc9_12 (12, ⟨[255, 255, 3, 255, 255, 255], [255, 255, 1, 255], 1, true⟩)

def acc9_14 : InferAcc := step9 acc9_13 (13, ⟨[255, 255, 5, 255, 255, 255], [255, 255, 0, 255], 1, true⟩)

def acc9_15 : InferAcc := step9 acc9_14 (14, ⟨[255, 255, 6, 255, 255, 255], [1, 255, 0, 255], 7/10, true⟩)

def acc9_16 : InferAcc := step9 acc9_15 (15, ⟨[255, 255, 255, 0, 255, 255], [255, 5, 255, 0], 1, true⟩)

def acc9_17 : InferAcc := step9 acc9_16 (16, ⟨[255, 255, 255, 1, 255, 255], [255, 3, 255, 0], 4/5, true⟩)

def acc9_18 : InferAcc := step9 acc9_17 (17, ⟨[255, 255, 255, 3, 255, 255], [255, 0, 255, 0], 1/2, true⟩)

def acc9_19 : InferAcc := step9 acc9_18 (18, ⟨[255, 255, 255, 5, 255, 255], [255, 0, 255, 1], 7/10, true⟩)

def acc9_20 : InferAcc := step9 acc9_19 (19, ⟨[255, 255, 255, 6, 255, 255], [255, 0, 255, 3], 9/10, true⟩)

def acc9_21 : InferAcc := step9 acc9_20 (20, ⟨[5, 5, 255, 255, 255, 255], [6, 0, 255, 255], 1, true⟩)

def acc9_22 : InferAcc := step9 acc9_21 (21, ⟨[1, 1, 255, 255, 255, 255], [0, 5, 255, 255], 9/10, true⟩)

def acc9_23 : InferAcc := step9 acc9_22 (22, ⟨[255, 255, 1, 255, 5, 255], [255, 255, 6, 255], 1, true⟩)

def acc9_24 : InferAcc := step9 acc9_23 (23, ⟨[3, 3, 3, 255, 255, 255], [0, 0, 1, 0], 1, true⟩)

def acc9_25 : InferAcc := step9 acc9_24 (24, ⟨[255, 255, 255, 255, 255, 6], [3, 255, 255, 255], 4/5, true⟩)

theorem acc9_fold : fc9.rules.enum.foldl step9 acc9_0 = acc9_25 := rfl

theorem len9_0 : (vars9 0).sets.length = 5 := rfl

theorem len9_1 : (vars9 1).sets.length = 5 := rfl

theorem len9_2 : (vars9 2).sets.length = 5 := rfl

theorem len9_3 : (vars9 3).sets.length = 5 := rfl

theorem len9_4 : (vars9 4).sets.length = 3 := rfl

theorem len9_5 : (vars9 5).sets.length = 5 := rfl

theorem outLen : ∀ o : Fin 4, (outputVars o).sets.length = 5 := fun _ => rfl

theorem outGet1 : ∀ o : Fin 4,
    (outputVars o).sets.getD 1 ⟨MFShape.singleton 0, ""⟩ =
      ⟨MFShape.triangular 0 25 50, "Low"⟩ := fun _ => rfl

theorem outGet3 : ∀ o : Fin 4,
    (outputVars o).sets.getD 3 ⟨MFShape.singleton 0, ""⟩ =
      ⟨MFShape.triangular 50 75 100, "High"⟩ := fun _ => rfl

theorem outElem1 (o : Fin 4) (h : 1 < (outputVars o).sets.length) :
    (outputVars o).sets[1] = ⟨MFShape.triangular 0 25 50, "Low"⟩ := rfl

theorem outElem3 (o : Fin 4) (h : 3 < (outputVars o).sets.length) :
    (outputVars o).sets[3] = ⟨MFShape.triangular 50 75 100, "High"⟩ := rfl

set_option maxHeartbeats 1000000 in
theorem m9_0 : memb9 0 = [0, 0, 1, 0, 0] := by
  norm_num [memb9, FuzzyController.membershipDegrees, inputVars, FuzzyController.fuzzify,
    evaluateMF, cfg9, inp9, mv9_0, mv9_1, mv9_2, mv9_3, valid9]

set_option maxHeartbeats 1000000 in
theorem m9_1 : memb9 1 = [0, 0, 1, 0, 0] := by
  norm_num [memb9, FuzzyController.membershipDegrees, inputVars, FuzzyController.fuzzify,
    evaluateMF, cfg9, inp9, mv9_0, mv9_1, mv9_2, mv9_3, valid9]

set_option maxHeartbeats 1000000 in
theorem m9_2 : memb9 2 = [0, 0, 1, 0, 0] := by
  norm_num [memb9, FuzzyController.membershipDegrees, inputVars, FuzzyController.fuzzify,
    evaluateMF, cfg9, inp9, mv9_0, mv9_1, mv9_2, mv9_3, valid9]

set_option maxHeartbeats 1000000 in
theorem m9_3 : memb9 3 = [0, 0, 1, 0, 0] := by
  norm_num [memb9, FuzzyController.membershipDegrees, inputVars, FuzzyController.fuzzify,
    evaluateMF, cfg9, inp9, mv9_0, mv9_1, mv9_2, mv9_3, valid9]

set_option maxHeartbeats 1000000 in
theorem m9_4 : memb9 4 = [0, 1, 0] := by
  norm_num [memb9, FuzzyController.membershipDegrees, inputVars, FuzzyController.fuzzify,
    evaluateMF, cfg9, inp9, mv9_0, mv9_1, mv9_2, mv9_3, valid9]

set_option maxHeartbeats 1000000 in
theorem m9_5 : memb9 5 = [0, 0, 1, 0, 0] := by
  norm_num [memb9, FuzzyController.membershipDegrees, inputVars, FuzzyController.fuzzify,
    evaluateMF, cfg9, inp9, mv9_0, mv9_1, mv9_2, mv9_3, valid9]

set_option maxHeartbeats 1000000 in
theorem fs9_0 : FuzzyController.firingStrength vars9 memb9 ⟨[6, 255, 255, 255, 255, 255], [6, 255, 255, 255], 1, true⟩ = 1 := by
  norm_num [FuzzyController.firingStrength, m9_0, m9_1, m9_2, m9_3, m9_4, m9_5,
    len9_0, len9_1, len9_2, len9_3, len9_4, len9_5,
    DONT_CARE, List.finRange, Fin.isValue]

set_option maxHeartbeats 1000000 in
theorem fs9_1 : FuzzyController.firingStrength vars9 memb9 ⟨[5, 255, 255, 255, 255, 255], [5, 255, 255, 255], 1, true⟩ = 1 := by
  norm_num [FuzzyController.firingStrength, m9_0, m9_1, m9_2, m9_3, m9_4, m9_5,
    len9_0, len9_1, len9_2, len9_3, len9_4, len9_5,
    DONT_CARE, List.finRange, Fin.isValue]

set_option maxHeartbeats 1000000 in
theorem fs9_2 : FuzzyController.firingStrength vars9 memb9 ⟨[3, 255, 255, 255, 255, 255], [0, 255, 255, 255], 1, true⟩ = 0 := by
  norm_num [FuzzyController.firingStrength, m9_0, m9_1, m9_2, m9_3, m9_4, m9_5,
    len9_0, len9_1, len9_2, len9_3, len9_4, len9_5,
    DONT_CARE, List.finRange, Fin.isValue]

set_option maxHeartbeats 1000000 in
theorem fs9_3 : FuzzyController.firingStrength vars9 memb9 ⟨[1, 255, 255, 255, 255, 255], [0, 255, 255, 255], 1, true⟩ = 0 := by
  norm_num [FuzzyController.firingStrength, m9_0, m9_1, m9_2, m9_3, m9_4, m9_5,
    len9_0, len9_1, len9_2, len9_3, len9_4, len9_5,
    DONT_CARE, List.finRange, Fin.isValue]

set_option maxHeartbeats 1000000 in
theorem fs9_4 : FuzzyController.firingStrength vars9 memb9 ⟨[5, 255, 255, 255, 255, 6], [6, 255, 255, 255], 1, true⟩ = 1 := by
  norm_num [FuzzyController.firingStrength, m9_0, m9_1, m9_2, m9_3, m9_4, m9_5,
    len9_0, len9_1, len9_2, len9_3, len9_4, len9_5,
    DONT_CARE, List.finRange, Fin.isValue]

set_option maxHeartbeats 1000000 in
theorem fs9_5 : FuzzyController.firingStrength vars9 memb9 ⟨[255, 0, 255, 255, 255, 255], [255, 6, 255, 255], 1, true⟩ = 0 := by
  norm_num [FuzzyController.firingStrength, m9_0, m9_1, m9_2, m9_3, m9_4, m9_5,
    len9_0, len9_1, len9_2, len9_3, len9_4, len9_5,
    DONT_CARE, List.finRange, Fin.isValue]

set_option maxHeartbeats 1000000 in
theorem fs9_6 : FuzzyController.firingStrength vars9 memb9 ⟨[255, 1, 255, 255, 255, 255], [255, 5, 255, 255], 1, true⟩ = 0 := by
  norm_num [FuzzyController.firingStrength, m9_0, m9_1, m9_2, m9_3, m9_4, m9_5,
    len9_0, len9_1, len9_2, len9_3, len9_4, len9_5,
    DONT_CARE, List.finRange, Fin.isValue]

set_option maxHeartbeats 1000000 in
theorem fs9_7 : FuzzyController.firingStrength vars9 memb9 ⟨[255, 3, 255, 255, 255, 255], [255, 0, 255, 255], 1, true⟩ = 0 := by
  norm_num [FuzzyController.firingStrength, m9_0, m9_1, m9_2, m9_3, m9_4, m9_5,
    len9_0, len9_1, len9_2, len9_3, len9_4, len9_5,
    DONT_CARE, List.finRange, Fin.isValue]

set_option maxHeartbeats 1000000 in
theorem fs9_8 : FuzzyController.firingStrength vars9 memb9 ⟨[255, 5, 255, 255, 255, 255], [3, 0, 255, 255], 4/5, true⟩ = 4/5 := by
  norm_num [FuzzyController.firingStrength, m9_0, m9_1, m9_2, m9_3, m9_4, m9_5,
    len9_0, len9_1, len9_2, len9_3, len9_4, len9_5,
    DONT_CARE, List.finRange, Fin.isValue]

set_option maxHeartbeats 1000000 in
theorem fs9_9 : FuzzyController.firingStrength vars9 memb9 ⟨[255, 6, 255, 255, 255, 255], [5, 0, 255, 255], 9/10, true⟩ = 9/10 := by
  norm_num [FuzzyController.firingStrength, m9_0, m9_1, m9_2, m9_3, m9_4, m9_5,
    len9_0, len9_1, len9_2, len9_3, len9_4, len9_5,
    DONT_CARE, List.finRange, Fin.isValue]

set_option maxHeartbeats 1000000 in
theorem fs9_10 : FuzzyController.firingStrength vars9 memb9 ⟨[255, 255, 0, 255, 255, 255], [255, 255, 6, 255], 1, true⟩ = 0 := by
  norm_num [FuzzyController.firingStrength, m9_0, m9_1, m9_2, m9_3, m9_4, m9_5,
    len9_0, len9_1, len9_2, len9_3, len9_4, len9_5,
    DONT_CARE, List.finRange, Fin.isValue]

set_option maxHeartbeats 1000000 in
theorem fs9_11 : FuzzyController.firingStrength vars9 memb9 ⟨[255, 255, 1, 255, 255, 255], [255, 255, 5, 255], 1, true⟩ = 0 := by
  norm_num [FuzzyController.firingStrength, m9_0, m9_1, m9_2, m9_3, m9_4, m9_5,
    len9_0, len9_1, len9_2, len9_3, len9_4, len9_5,
    DONT_CARE, List.finRange, Fin.isValue]

set_option maxHeartbeats 1000000 in
theorem fs9_12 : FuzzyController.firingStrength vars9 memb9 ⟨[255, 255, 3, 255, 255, 255], [255, 255, 1, 255], 1, true⟩ = 0 := by
  norm_num [FuzzyController.firingStrength, m9_0, m9_1, m9_2, m9_3, m9_4, m9_5,
    len9_0, len9_1, len9_2, len9_3, len9_4, len9_5,
    DONT_CARE, List.finRange, Fin.isValue]

set_option maxHeartbeats 1000000 in
theorem fs9_13 : FuzzyController.firingStrength vars9 memb9 ⟨[255, 255, 5, 255, 255, 255], [255, 255, 0, 255], 1, true⟩ = 1 := by
  norm_num [FuzzyController.firingStrength, m9_0, m9_1, m9_2, m9_3, m9_4, m9_5,
    len9_0, len9_1, len9_2, len9_3, len9_4, len9_5,
    DONT_CARE, List.finRange, Fin.isValue]

set_option maxHeartbeats 1000000 in
theorem fs9_14 : FuzzyController.firingStrength vars9 memb9 ⟨[255, 255, 6, 255, 255, 255], [1, 255, 0, 255], 7/10, true⟩ = 7/10 := by
  norm_num [FuzzyController.firingStrength, m9_0, m9_1, m9_2, m9_3, m9_4, m9_5,
    len9_0, len9_1, len9_2, len9_3, len9_4, len9_5,
    DONT_CARE, List.finRange, Fin.isValue]

set_option maxHeartbeats 1000000 in
theorem fs9_15 : FuzzyController.firingStrength vars9 memb9 ⟨[255, 255, 255, 0, 255, 255], [255, 5, 255, 0], 1, true⟩ = 0 := by
  norm_num [FuzzyController.firingStrength, m9_0, m9_1, m9_2, m9_3, m9_4, m9_5,
    len9_0, len9_1, len9_2, len9_3, len9_4, len9_5,
    DONT_CARE, List.finRange, Fin.isValue]

set_option maxHeartbeats 1000000 in
theorem fs9_16 : FuzzyController.firingStrength vars9 memb9 ⟨[255, 255, 255, 1, 255, 255], [255, 3, 255, 0], 4/5, true⟩ = 0 := by
  norm_num [FuzzyController.firingStrength, m9_0, m9_1, m9_2, m9_3, m9_4, m9_5,
    len9_0, len9_1, len9_2, len9_3, len9_4, len9_5,
    DONT_CARE, List.finRange, Fin.isValue]

set_option maxHeartbeats 1000000 in
theorem fs9_17 : FuzzyController.firingStrength vars9 memb9 ⟨[255, 255, 255, 3, 255, 255], [255, 0, 255, 0], 1/2, true⟩ = 0 := by
  norm_num [FuzzyController.firingStrength, m9_0, m9_1, m9_2, m9_3, m9_4, m9_5,
    len9_0, len9_1, len9_2, len9_3, len9_4, len9_5,
    DONT_CARE, List.finRange, Fin.isValue]

set_option maxHeartbeats 1000000 in
theorem fs9_18 : FuzzyController.firingStrength vars9 memb9 ⟨[255, 255, 255, 5, 255, 255], [255, 0, 255, 1], 7/10, true⟩ = 7/10 := by
  norm_num [FuzzyController.firingStrength, m9_0, m9_1, m9_2, m9_3, m9_4, m9_5,
    len9_0, len9_1, len9_2, len9_3, len9_4, len9_5,
    DONT_CARE, List.finRange, Fin.isValue]

set_option maxHeartbeats 1000000 in
theorem fs9_19 : FuzzyController.firingStrength vars9 memb9 ⟨[255, 255, 255, 6, 255, 255], [255, 0, 255, 3], 9/10, true⟩ = 9/10 := by
  norm_num [FuzzyController.firingStrength, m9_0, m9_1, m9_2, m9_3, m9_4, m9_5,
    len9_0, len9_1, len9_2, len9_3, len9_4, len9_5,
    DONT_CARE, List.finRange, Fin.isValue]

set_option maxHeartbeats 1000000 in
theorem fs9_20 : FuzzyController.firingStrength vars9 memb9 ⟨[5, 5, 255, 255, 255, 255], [6, 0, 255, 255], 1, true⟩ = 1 := by
  norm_num [FuzzyController.firingStrength, m9_0, m9_1, m9_2, m9_3, m9_4, m9_5,
    len9_0, len9_1, len9_2, len9_3, len9_4, len9_5,
    DONT_CARE, List.finRange, Fin.isValue]

set_option maxHeartbeats 1000000 in
theorem fs9_21 : FuzzyController.firingStrength vars9 memb9 ⟨[1, 1, 255, 255, 255, 255], [0, 5, 255, 255], 9/10, true⟩ = 0 := by
  norm_num [FuzzyController.firingStrength, m9_0, m9_1, m9_2, m9_3, m9_4, m9_5,
    len9_0, len9_1, len9_2, len9_3, len9_4, len9_5,
    DONT_CARE, List.finRange, Fin.isValue]

set_option maxHeartbeats 1000000 in
theorem fs9_22 : FuzzyController.firingStrength vars9 memb9 ⟨[255, 255, 1, 255, 5, 255], [255, 255, 6, 255], 1, true⟩ = 0 := by
  norm_num [FuzzyController.firingStrength, m9_0, m9_1, m9_2, m9_3, m9_4, m9_5,
    len9_0, len9_1, len9_2, len9_3, len9_4, len9_5,
    DONT_CARE, List.finRange, Fin.isValue]

set_option maxHeartbeats 1000000 in
theorem fs9_23 : FuzzyController.firingStrength vars9 memb9 ⟨[3, 3, 3, 255, 255, 255], [0, 0, 1, 0], 1, true⟩ = 0 := by
  norm_num [FuzzyController.firingStrength, m9_0, m9_1, m9_2, m9_3, m9_4, m9_5,
    len9_0, len9_1, len9_2, len9_3, len9_4, len9_5,
    DONT_CARE, List.finRange, Fin.isValue]

set_option maxHeartbeats 1000000 in
theorem fs9_24 : FuzzyController.firingStrength vars9 memb9 ⟨[255, 255, 255, 255, 255, 6], [3, 255, 255, 255], 4/5, true⟩ = 4/5 := by
  norm_num [FuzzyController.firingStrength, m9_0, m9_1, m9_2, m9_3, m9_4, m9_5,
    len9_0, len9_1, len9_2, len9_3, len9_4, len9_5,
    DONT_CARE, List.finRange, Fin.isValue]

theorem g9_0 : ∀ x : ℕ, acc9_0.agg 0 x = 0 := fun _ => rfl

set_option maxHeartbeats 1000000 in
theorem g9_1 : ∀ x : ℕ, acc9_1.agg 0 x = (0 : ℚ) := by
  intro x
  simp only [acc9_1, step9, stepRule_agg, fs9_0]
  norm_num [g9_0, outLen, outGet1, outGet3, outElem1, outElem3, c9highClip, c9lowClip, DONT_CARE, Fin.isValue]

set_option maxHeartbeats 1000000 in
theorem g9_2 : ∀ x : ℕ, acc9_2.agg 0 x = (0 : ℚ) := by
  intro x
  simp only [acc9_2, step9, stepRule_agg, fs9_1]
  norm_num [g9_1, outLen, outGet1, outGet3, outElem1, outElem3, c9highClip, c9lowClip, DONT_CARE, Fin.isValue]

set_option maxHeartbeats 1000000 in
theorem g9_3 : ∀ x : ℕ, acc9_3.agg 0 x = (0 : ℚ) := by
  intro x
  simp only [acc9_3, step9, stepRule_agg, fs9_2]
  norm_num [g9_2, outLen, outGet1, outGet3, outElem1, outElem3, c9highClip, c9lowClip, DONT_CARE, Fin.isValue]

set_option maxHeartbeats 1000000 in
theorem g9_4 : ∀ x : ℕ, acc9_4.agg 0 x = (0 : ℚ) := by
  intro x
  simp only [acc9_4, step9, stepRule_agg, fs9_3]
  norm_num [g9_3, outLen, outGet1, outGet3, outElem1, outElem3, c9highClip, c9lowClip, DONT_CARE, Fin.isValue]

set_option maxHeartbeats 1000000 in
theorem g9_5 : ∀ x : ℕ, acc9_5.agg 0 x = (0 : ℚ) := by
  intro x
  simp only [acc9_5, step9, stepRule_agg, fs9_4]
  norm_num [g9_4, outLen, outGet1, outGet3, outElem1, outElem3, c9highClip, c9lowClip, DONT_CARE, Fin.isValue]

set_option maxHeartbeats 1000000 in
theorem g9_6 : ∀ x : ℕ, acc9_6.agg 0 x = (0 : ℚ) := by
  intro x
  simp only [acc9_6, step9, stepRule_agg, fs9_5]
  norm_num [g9_5, outLen, outGet1, outGet3, outElem1, outElem3, c9highClip, c9lowClip, DONT_CARE, Fin.isValue]

set_option maxHeartbeats 1000000 in
theorem g9_7 : ∀ x : ℕ, acc9_7.agg 0 x = (0 : ℚ) := by
  intro x
  simp only [acc9_7, step9, stepRule_agg, fs9_6]
  norm_num [g9_6, outLen, outGet1, outGet3, outElem1, outElem3, c9highClip, c9lowClip, DONT_CARE, Fin.isValue]

set_option maxHeartbeats 1000000 in
theorem g9_8 : ∀ x : ℕ, acc9_8.agg 0 x = (0 : ℚ) := by
  intro x
  simp only [acc9_8, step9, stepRule_agg, fs9_7]
  norm_num [g9_7, outLen, outGet1, outGet3, outElem1, outElem3, c9highClip, c9lowClip, DONT_CARE, Fin.isValue]

set_option maxHeartbeats 1000000 in
theorem g9_9 : ∀ x : ℕ, acc9_9.agg 0 x = max ((0 : ℚ)) (c9highClip x) := by
  intro x
  simp only [acc9_9, step9, stepRule_agg, fs9_8]
  norm_num [g9_8, outLen, outGet1, outGet3, outElem1, outElem3, c9highClip, c9lowClip, DONT_CARE, Fin.isValue]

set_option maxHeartbeats 1000000 in
theorem g9_10 : ∀ x : ℕ, acc9_10.agg 0 x = max ((0 : ℚ)) (c9highClip x) := by
  intro x
  simp only [acc9_10, step9, stepRule_agg, fs9_9]
  norm_num [g9_9, outLen, outGet1, outGet3, outElem1, outElem3, c9highClip, c9lowClip, DONT_CARE, Fin.isValue]

set_option maxHeartbeats 1000000 in
theorem g9_11 : ∀ x : ℕ, acc9_11.agg 0 x = max ((0 : ℚ)) (c9highClip x) := by
  intro x
  simp only [acc9_11, step9, stepRule_agg, fs9_10]
  norm_num [g9_10, outLen, outGet1, outGet3, outElem1, outElem3, c9highClip, c9lowClip, DONT_CARE, Fin.isValue]

set_option maxHeartbeats 1000000 in
theorem g9_12 : ∀ x : ℕ, acc9_12.agg 0 x = max ((0 : ℚ)) (c9highClip x) := by
  intro x
  simp only [acc9_12, step9, stepRule_agg, fs9_11]
  norm_num [g9_11, outLen, outGet1, outGet3, outElem1, outElem3, c9highClip, c9lowClip, DONT_CARE, Fin.isValue]

set_option maxHeartbeats 1000000 in
theorem g9_13 : ∀ x : ℕ, acc9_13.agg 0 x = max ((0 : ℚ)) (c9highClip x) := by
  intro x
  simp only [acc9_13, step9, stepRule_agg, fs9_12]
  norm_num [g9_12, outLen, outGet1, outGet3, outElem1, outElem3, c9highClip, c9lowClip, DONT_CARE, Fin.isValue]

set_option maxHeartbeats 1000000 in
theorem g9_14 : ∀ x : ℕ, acc9_14.agg 0 x = max ((0 : ℚ)) (c9highClip x) := by
  intro x
  simp only [acc9_14, step9, stepRule_agg, fs9_13]
  norm_num [g9_13, outLen, outGet1, outGet3, outElem1, outElem3, c9highClip, c9lowClip, DONT_CARE, Fin.isValue]

set_option maxHeartbeats 1000000 in
theorem g9_15 : ∀ x : ℕ, acc9_15.agg 0 x = max (max ((0 : ℚ)) (c9highClip x)) (c9lowClip x) := by
  intro x
  simp only [acc9_15, step9, stepRule_agg, fs9_14]
  norm_num [g9_14, outLen, outGet1, outGet3, outElem1, outElem3, c9highClip, c9lowClip, DONT_CARE, Fin.isValue]

set_option maxHeartbeats 1000000 in
theorem g9_16 : ∀ x : ℕ, acc9_16.agg 0 x = max (max ((0 : ℚ)) (c9highClip x)) (c9lowClip x) := by
  intro x
  simp only [acc9_16, step9, stepRule_agg, fs9_15]
  norm_num [g9_15, outLen, outGet1, outGet3, outElem1, outElem3, c9highClip, c9lowClip, DONT_CARE, Fin.isValue]

set_option maxHeartbeats 1000000 in
theorem g9_17 : ∀ x : ℕ, acc9_17.agg 0 x = max (max ((0 : ℚ)) (c9highClip x)) (c9lowClip x) := by
  intro x
  simp only [acc9_17, step9, stepRule_agg, fs9_16]
  norm_num [g9_16, outLen, outGet1, outGet3, outElem1, outElem3, c9highClip, c9lowClip, DONT_CARE, Fin.isValue]

set_option maxHeartbeats 1000000 in
theorem g9_18 : ∀ x : ℕ, acc9_18.agg 0 x = max (max ((0 : ℚ)) (c9highClip x)) (c9lowClip x) := by
  intro x
  simp only [acc9_18, step9, stepRule_agg, fs9_17]
  norm_num [g9_17, outLen, outGet1, outGet3, outElem1, outElem3, c9highClip, c9lowClip, DONT_CARE, Fin.isValue]

set_option maxHeartbeats 1000000 in
theorem g9_19 : ∀ x : ℕ, acc9_19.agg 0 x = max (max ((0 : ℚ)) (c9highClip x)) (c9lowClip x) := by
  intro x
  simp only [acc9_19, step9, stepRule_agg, fs9_18]
  norm_num [g9_18, outLen, outGet1, outGet3, outElem1, outElem3, c9highClip, c9lowClip, DONT_CARE, Fin.isValue]

set_option maxHeartbeats 1000000 in
theorem g9_20 : ∀ x : ℕ, acc9_20.agg 0 x = max (max ((0 : ℚ)) (c9highClip x)) (c9lowClip x) := by
  intro x
  simp only [acc9_20, step9, stepRule_agg, fs9_19]
  norm_num [g9_19, outLen, outGet1, outGet3, outElem1, outElem3, c9highClip, c9lowClip, DONT_CARE, Fin.isValue]

set_option maxHeartbeats 1000000 in
theorem g9_21 : ∀ x : ℕ, acc9_21.agg 0 x = max (max ((0 : ℚ)) (c9highClip x)) (c9lowClip x) := by
  intro x
  simp only [acc9_21, step9, stepRule_agg, fs9_20]
  norm_num [g9_20, outLen, outGet1, outGet3, outElem1, outElem3, c9highClip, c9lowClip, DONT_CARE, Fin.isValue]

set_option maxHeartbeats 1000000 in
theorem g9_22 : ∀ x : ℕ, acc9_22.agg 0 x = max (max ((0 : ℚ)) (c9highClip x)) (c9lowClip x) := by
  intro x
  simp only [acc9_22, step9, stepRule_agg, fs9_21]
  norm_num [g9_21, outLen, outGet1, outGet3, outElem1, outElem3, c9highClip, c9lowClip, DONT_CARE, Fin.isValue]

set_option maxHeartbeats 1000000 in
theorem g9_23 : ∀ x : ℕ, acc9_23.agg 0 x = max (max ((0 : ℚ)) (c9highClip x)) (c9lowClip x) := by
  intro x
  simp only [acc9_23, step9, stepRule_agg, fs9_22]
  norm_num [g9_22, outLen, outGet1, outGet3, outElem1, outElem3, c9highClip, c9lowClip, DONT_CARE, Fin.isValue]

set_option maxHeartbeats 1000000 in
theorem g9_24 : ∀ x : ℕ, acc9_24.agg 0 x = max (max ((0 : ℚ)) (c9highClip x)) (c9lowClip x) := by
  intro x
  simp only [acc9_24, step9, stepRule_agg, fs9_23]
  norm_num [g9_23, outLen, outGet1, outGet3, outElem1, outElem3, c9highClip, c9lowClip, DONT_CARE, Fin.isValue]

set_option maxHeartbeats 1000000 in
theorem g9_25 : ∀ x : ℕ, acc9_25.agg 0 x = max (max (max ((0 : ℚ)) (c9highClip x)) (c9lowClip x)) (c9highClip x) := by
  intro x
  simp only [acc9_25, step9, stepRule_agg, fs9_24]
  norm_num [g9_24, outLen, outGet1, outGet3, outElem1, outElem3, c9highClip, c9lowClip, DONT_CARE, Fin.isValue]


set_option maxRecDepth 1000000 in
set_option maxHeartbeats 8000000 in
theorem defuzz9 : defuzzify (outputVars 0) (acc9_25.agg 0) = 39475/779 := by
  have hg : acc9_25.agg 0 = fun x =>
      max (max (max (0 : ℚ) (c9highClip x)) (c9lowClip x)) (c9highClip x) :=
    funext g9_25
  rw [hg]
  norm_num [defuzzify, evaluateMF, crispAt, outputVars, c9highClip, c9lowClip,
    FUZZY_RESOLUTION, List.range, List.range.loop, List.foldl, Fin.isValue]

theorem c9_link : (evaluate fc9 inp9).blowdown_rate = defuzzify (outputVars 0) (acc9_25.agg 0) := rfl

theorem c9_blowdown : (evaluate fc9 inp9).blowdown_rate = 39475/779 :=
  c9_link.trans defuzz9

/-- C9 (code_bug): with all four manual inputs valid and exactly at
their configured setpoints (conductivity 2500, alkalinity 400, sulfite
40, pH 11, temperature 50, zero trend), `evaluate` returns a blowdown
recommendation of 39475/779 (≈ 50.7), strictly above 50 and therefore
outside the support of the Zero/Low consequents the claim requires:
although every at-setpoint membership vector is exactly Normal
([0, 0, 1, 0, 0]) and the confidence string is "HIGH", the default rule
base indexes the 5-set variables with 7-term enum codes, so the
all-Normal rule (index 23, antecedent code 3 = MD) reads the "High" set
(index 3) and fires at 0, while rule 8 ("Alkalinity HI", code 5, out
of range for 5 sets) degenerates to a wildcard that fires the High
blowdown consequent at strength 4/5. -/
theorem c9_setpoint_response :
    (evaluate fc9 inp9).blowdown_rate = 39475 / 779 ∧
    50 < (evaluate fc9 inp9).blowdown_rate ∧
    membershipDegrees cfg9 fc9 inp9 1 = [0, 0, 1, 0, 0] ∧
    ((inputVars cfg9 1).sets.getD 2 ⟨MFShape.singleton 0, ""⟩).name = "Normal" ∧
    ((inputVars cfg9 1).sets.getD 3 ⟨MFShape.singleton 0, ""⟩).name = "High" ∧
    firingStrength (inputVars cfg9) (membershipDegrees cfg9 fc9 inp9)
      (defaultRules.getD 23 ⟨[], [], 0, false⟩) = 0 ∧
    firingStrength (inputVars cfg9) (membershipDegrees cfg9 fc9 inp9)
      (defaultRules.getD 8 ⟨[], [], 0, false⟩) = 4 / 5 ∧
    webConfidence true true true = "HIGH" :=
  ⟨c9_blowdown, by rw [c9_blowdown]; norm_num, m9_1, rfl, rfl,
   by
    rw [show defaultRules.getD 23 ⟨[], [], 0, false⟩ =
      (⟨[3, 3, 3, 255, 255, 255], [0, 0, 1, 0], 1, true⟩ : Rule) by
        norm_num [defaultRules, List.getD, List.getElem?_cons_succ, VL, LO, MD,
          HI, VH, DC]]
    exact fs9_23,
   by
    rw [show defaultRules.getD 8 ⟨[], [], 0, false⟩ =
      (⟨[255, 5, 255, 255, 255, 255], [3, 0, 255, 255], 4/5, true⟩ : Rule) by
        norm_num [defaultRules, List.getD, List.getElem?_cons_succ, VL, LO, MD,
          HI, VH, DC]]
    exact fs9_8,
   rfl⟩

end FuzzyController

end Boiler
